import Mathlib

/-!
Verification development for the NAS basketball-analytics repository.

The Python modules under `src/modules` are shallowly embedded below:
Python floats are modelled as exact rationals (`ℚ`), Python `round(x, n)`
as round-half-to-even on rationals, dictionaries either as records whose
optional keys are `Option` fields (a key read with `dict.get(k, d)`
becomes `field.getD d`, a raising access `dict[k]` becomes a plain field
on the well-formed record, or an `Except`-valued access in the monadic
model of `StrategyEngine.compose_recommendations`), or as association
lists when the set of keys itself matters.  Presentation-only string
fields built by float formatting (`reason`, `evidences`, adjustment
description strings) are not modelled; no claim mentions them and they
feed no control flow.
-/

/-- Python `round` to an integer: round half to even (banker's rounding). -/
def pythonRound (q : ℚ) : ℤ :=
  if q - ⌊q⌋ < 1/2 then ⌊q⌋
  else if 1/2 < q - ⌊q⌋ then ⌊q⌋ + 1
  else if ⌊q⌋ % 2 = 0 then ⌊q⌋ else ⌊q⌋ + 1

/-- Python `round(x, n)` on rationals. -/
def roundTo (n : ℕ) (q : ℚ) : ℚ :=
  (pythonRound (q * 10 ^ n) : ℚ) / 10 ^ n

theorem floor_le_pythonRound (q : ℚ) : ⌊q⌋ ≤ pythonRound q := by
  unfold pythonRound
  split
  · exact le_refl _
  · split
    · exact le_of_lt (lt_add_one _)
    · split
      · exact le_refl _
      · exact le_of_lt (lt_add_one _)

theorem pythonRound_le_ceil (q : ℚ) : pythonRound q ≤ ⌈q⌉ := by
  unfold pythonRound
  have hfc : ⌊q⌋ ≤ ⌈q⌉ := Int.floor_le_ceil q
  have hlt : (1:ℚ)/2 < q - ⌊q⌋ → ⌊q⌋ + 1 ≤ ⌈q⌉ := by
    intro h
    have hq : (⌊q⌋ : ℚ) < q := by linarith [Int.floor_le q]
    exact Int.lt_ceil.mpr hq
  have hle : ¬ (q - ⌊q⌋ < 1/2) → ⌊q⌋ + 1 ≤ ⌈q⌉ := by
    intro h
    have hq : (⌊q⌋ : ℚ) < q := by
      have := not_lt.mp h
      linarith
    exact Int.lt_ceil.mpr hq
  split
  · exact hfc
  · next h =>
    split
    · next h2 => exact hle h
    · split
      · exact hfc
      · exact hle h

theorem pythonRound_intCast (z : ℤ) : pythonRound (z : ℚ) = z := by
  unfold pythonRound
  have h0 : ⌊(z:ℚ)⌋ = z := Int.floor_intCast z
  rw [h0]
  have h1 : (z:ℚ) - (z:ℚ) = 0 := by ring
  rw [h1]
  norm_num

theorem roundTo_le_of_le {n : ℕ} {q b : ℚ} (B : ℤ) (hB : (B : ℚ) = b * 10 ^ n)
    (h : q ≤ b) : roundTo n q ≤ b := by
  unfold roundTo
  have hpow : (0:ℚ) < 10 ^ n := by positivity
  have h1 : q * 10 ^ n ≤ (B : ℚ) := by
    rw [hB]; exact mul_le_mul_of_nonneg_right h (le_of_lt hpow)
  have h2 : pythonRound (q * 10 ^ n) ≤ B := by
    calc pythonRound (q * 10 ^ n) ≤ ⌈q * 10 ^ n⌉ := pythonRound_le_ceil _
    _ ≤ B := Int.ceil_le.mpr h1
  have h3 : (pythonRound (q * 10 ^ n) : ℚ) ≤ (B : ℚ) := by exact_mod_cast h2
  calc (pythonRound (q * 10 ^ n) : ℚ) / 10 ^ n ≤ (B : ℚ) / 10 ^ n := by
        exact div_le_div_of_nonneg_right h3 hpow.le
  _ = b := by rw [hB]; field_simp

theorem roundTo_ge_of_ge {n : ℕ} {q b : ℚ} (B : ℤ) (hB : (B : ℚ) = b * 10 ^ n)
    (h : b ≤ q) : b ≤ roundTo n q := by
  unfold roundTo
  have hpow : (0:ℚ) < 10 ^ n := by positivity
  have h1 : (B : ℚ) ≤ q * 10 ^ n := by
    rw [hB]; exact mul_le_mul_of_nonneg_right h (le_of_lt hpow)
  have h2 : B ≤ pythonRound (q * 10 ^ n) := by
    calc B ≤ ⌊q * 10 ^ n⌋ := Int.le_floor.mpr h1
    _ ≤ pythonRound (q * 10 ^ n) := floor_le_pythonRound _
  have h3 : (B : ℚ) ≤ (pythonRound (q * 10 ^ n) : ℚ) := by exact_mod_cast h2
  have : (B : ℚ) / 10 ^ n ≤ (pythonRound (q * 10 ^ n) : ℚ) / 10 ^ n :=
    div_le_div_of_nonneg_right h3 hpow.le
  calc b = (B : ℚ) / 10 ^ n := by rw [hB]; field_simp
  _ ≤ _ := this

theorem roundTo_eq_self {n : ℕ} {q : ℚ} (K : ℤ) (hK : (K : ℚ) = q * 10 ^ n) :
    roundTo n q = q := by
  unfold roundTo
  rw [← hK, pythonRound_intCast, hK]
  have hpow : (10:ℚ) ^ n ≠ 0 := by positivity
  field_simp

/-- Python substring test `pat in s`, on character lists: `pat` is a prefix. -/
def listStarts : List Char → List Char → Bool
  | [], _ => true
  | _ :: _, [] => false
  | a :: as, b :: bs => a == b && listStarts as bs

/-- Python substring test `pat in s`, on character lists. -/
def listHasSub (pat : List Char) : List Char → Bool
  | [] => listStarts pat []
  | b :: bs => listStarts pat (b :: bs) || listHasSub pat bs

/-- Python `pat in s` for strings. -/
def strHasSub (s pat : String) : Bool :=
  listHasSub pat.toList s.toList

/-- Python `str.lower()` (ASCII, which covers the status strings used). -/
def pyToLower (s : String) : String := String.mk (s.toList.map Char.toLower)

/-- Python `str.upper()` (ASCII, which covers the position strings used). -/
def pyToUpper (s : String) : String := String.mk (s.toList.map Char.toUpper)

/-- Stable insertion preserving descending order of the key (ties keep the
earlier element first), matching Python `sorted(key=…, reverse=True)`. -/
def insertDescBy {α : Type} (key : α → ℚ) (a : α) : List α → List α
  | [] => [a]
  | b :: bs => if key b ≤ key a then a :: b :: bs else b :: insertDescBy key a bs

/-- Stable descending sort by a rational key (Python `sorted(…, reverse=True)`). -/
def sortDescBy {α : Type} (key : α → ℚ) : List α → List α
  | [] => []
  | a :: as => insertDescBy key a (sortDescBy key as)

/-- Stable ascending insertion, matching Python `sorted(key=…)`. -/
def insertAscBy {α : Type} (key : α → ℚ) (a : α) : List α → List α
  | [] => [a]
  | b :: bs => if key a ≤ key b then a :: b :: bs else b :: insertAscBy key a bs

/-- Stable ascending sort by a rational key (Python `sorted`). -/
def sortAscBy {α : Type} (key : α → ℚ) : List α → List α
  | [] => []
  | a :: as => insertAscBy key a (sortAscBy key as)

theorem insertDescBy_perm {α : Type} (key : α → ℚ) (a : α) (l : List α) :
    List.Perm (insertDescBy key a l) (a :: l) := by
  induction l with
  | nil => simp [insertDescBy]
  | cons b bs ih =>
    unfold insertDescBy
    split
    · exact List.Perm.refl _
    · exact List.Perm.trans (List.Perm.cons b ih) (List.Perm.swap a b bs)

theorem sortDescBy_perm {α : Type} (key : α → ℚ) (l : List α) :
    List.Perm (sortDescBy key l) l := by
  induction l with
  | nil => exact List.Perm.refl _
  | cons a as ih =>
    exact List.Perm.trans (insertDescBy_perm key a _) (List.Perm.cons a ih)

theorem insertAscBy_perm {α : Type} (key : α → ℚ) (a : α) (l : List α) :
    List.Perm (insertAscBy key a l) (a :: l) := by
  induction l with
  | nil => simp [insertAscBy]
  | cons b bs ih =>
    unfold insertAscBy
    split
    · exact List.Perm.refl _
    · exact List.Perm.trans (List.Perm.cons b ih) (List.Perm.swap a b bs)

theorem sortAscBy_perm {α : Type} (key : α → ℚ) (l : List α) :
    List.Perm (sortAscBy key l) l := by
  induction l with
  | nil => exact List.Perm.refl _
  | cons a as ih =>
    exact List.Perm.trans (insertAscBy_perm key a _) (List.Perm.cons a ih)

/-- First-match association-list lookup (Python `dict` access; keys unique). -/
def alookup {κ ν : Type} [DecidableEq κ] (k : κ) : List (κ × ν) → Option ν
  | [] => none
  | (k2, v) :: rest => if k2 = k then some v else alookup k rest

/-- Python `dict[k] = v`: update the key in place, else append it. -/
def updateKey {κ ν : Type} [DecidableEq κ] (l : List (κ × ν)) (k : κ) (v : ν) :
    List (κ × ν) :=
  if (alookup k l).isSome then l.map (fun kv => if kv.1 = k then (k, v) else kv)
  else l ++ [(k, v)]

/-! ## modules/player_context.py -/

/-- A roster entry record (`roster_entry` dict). `STARTER` holds the result of
Python `bool(...)` on the stored value. -/
structure RosterEntry where
  PLAYER : Option String := none
  POSITION : Option String := none
  STARTER : Bool := false
  STATUS : Option String := none
deriving DecidableEq, Repr

/-- A recent-stats row (`df_l5_row` dict), restricted to the keys
`derive_availability_and_expected_minutes` reads. -/
structure L5Row where
  MIN_AVG : Option ℚ := none
  LAST_MIN : Option ℚ := none
deriving DecidableEq, Repr

structure AvailabilityResult where
  availability : String
  expected_minutes : ℚ
deriving DecidableEq, Repr

/-- `derive_availability_and_expected_minutes` (player_context.py, lines 33-52). -/
def deriveAvailabilityAndExpectedMinutes (roster_entry : RosterEntry)
    (df_l5_row : Option L5Row) (treat_unknown_as_available : Bool) :
    AvailabilityResult :=
  let status := pyToLower (roster_entry.STATUS.getD "")
  let starter := roster_entry.STARTER
  let min_avg : ℚ := match df_l5_row with
    | some row => row.MIN_AVG.getD 0
    | none => 0
  let last_min : ℚ := match df_l5_row with
    | some row => row.LAST_MIN.getD 0
    | none => 0
  let p : String × ℚ :=
    if strHasSub status "out" || strHasSub status "ir" || strHasSub status "injur" then
      ("out", 0)
    else if starter then
      ("available", max (max min_avg last_min) 28)
    else if status ≠ "" ∧ (strHasSub status "active" || strHasSub status "available") then
      ("available", max (min_avg * (8/10)) (last_min * (9/10)))
    else
      ("probable",
        if treat_unknown_as_available then max (min_avg * (8/10)) (last_min * (6/10))
        else min_avg * (6/10))
  { availability := p.1, expected_minutes := max 0 p.2 }

/-- `build_player_ctx` usage tier (player_context.py, line 86). -/
def buildCtxUsage (pra_L5 : ℚ) : String :=
  if pra_L5 ≥ 30 then "high" else if pra_L5 ≥ 18 then "medium" else "low"

/-- `build_player_ctx` role decision table (player_context.py, lines 90-99). -/
def buildCtxRole (starter : Bool) (usage : String) : String :=
  if starter ∧ usage = "high" then "star"
  else if starter ∧ usage ≠ "low" then "starter"
  else if ¬starter ∧ usage = "high" then "bench_scorer"
  else if ¬starter ∧ usage = "medium" then "rotation"
  else "deep_bench"

/-! ## modules/new_modules/vacuum_matrix.py -/

/-- One value of the `vacuum_opportunities` dict built by `analyze_team_vacuum`. -/
structure VacuumOpp where
  reason : String
  boost : ℚ
  absent_starter : Option String
  position : String
deriving DecidableEq, Repr

/-- One entry of the `absent_starters` list. -/
structure AbsentStarter where
  name : Option String
  position : String
deriving DecidableEq, Repr

/-- Python `f"...{x}..."` on a possibly-`None` string. -/
def pyStrOfOpt (o : Option String) : String := o.getD "None"

/-- `VacuumMatrixAnalyzer._is_player_out` (vacuum_matrix.py, lines 77-80).
Note the keyword list is `["out", "injured", "ir"]`. -/
def isPlayerOut (player : RosterEntry) : Bool :=
  let status := pyToLower (player.STATUS.getD "")
  strHasSub status "out" || strHasSub status "injured" || strHasSub status "ir"

/-- The `vacuum_opportunities` value built for a substitute of `starter`
(the 1.25 boost tagged with the absent starter's name). -/
def mkVacuumOpp (starter : AbsentStarter) : VacuumOpp :=
  { reason := "Substituto de " ++ pyStrOfOpt starter.name
    boost := 5/4
    absent_starter := starter.name
    position := starter.position }

/-- `if player_name not in vacuum_opportunities: vacuum_opportunities[...] = ...`. -/
def insertIfAbsent {κ ν : Type} [DecidableEq κ] (l : List (κ × ν)) (e : κ × ν) :
    List (κ × ν) :=
  if (alookup e.1 l).isSome then l else l ++ [e]

/-- The inner-loop body of `analyze_team_vacuum`: a same-position,
non-starter, non-out candidate is inserted first-match-wins. -/
def vacuumCandidateStep (starter : AbsentStarter)
    (vo : List (Option String × VacuumOpp)) (p : RosterEntry) :
    List (Option String × VacuumOpp) :=
  if pyToUpper (p.POSITION.getD "") = starter.position ∧ ¬p.STARTER ∧ ¬isPlayerOut p then
    insertIfAbsent vo (p.PLAYER, mkVacuumOpp starter)
  else vo

/-- The `absent_starters` list of `analyze_team_vacuum`. -/
def absentStarters (team_roster : List RosterEntry) : List AbsentStarter :=
  team_roster.filterMap (fun p =>
    if p.STARTER && isPlayerOut p then
      some { name := p.PLAYER, position := pyToUpper (p.POSITION.getD "") : AbsentStarter }
    else none)

/-- `VacuumMatrixAnalyzer.analyze_team_vacuum` (vacuum_matrix.py, lines 10-50).
The returned dict is keyed by `player.get("PLAYER")` (possibly `None`);
`team_abbr` is unused by the source body as well. -/
def analyzeTeamVacuum (team_roster : List RosterEntry) (team_abbr : String) :
    List (Option String × VacuumOpp) :=
  if team_roster = [] then [] else
  if absentStarters team_roster = [] then [] else
  (absentStarters team_roster).foldl (fun acc starter =>
    team_roster.foldl (vacuumCandidateStep starter) acc) []

/-- The player-context record as read and written by `apply_vacuum_boost`. -/
structure VCtx where
  name : Option String := none
  pts_L5 : Option ℚ := none
  reb_L5 : Option ℚ := none
  ast_L5 : Option ℚ := none
  pra_L5 : Option ℚ := none
  vacuum_boost : Option (Bool × ℚ × String × Option String) := none
deriving DecidableEq, Repr

/-- `VacuumMatrixAnalyzer.apply_vacuum_boost` (vacuum_matrix.py, lines 52-75).
The `vacuum_boost` metadata tuple is `(active, boost_factor, reason, replaces)`.
The `not player_ctx` early return (empty dict) has no counterpart in the
record model; the `not vacuum_data` early return is kept. -/
def applyVacuumBoost (player_ctx : VCtx)
    (vacuum_data : List (Option String × VacuumOpp)) : VCtx :=
  if vacuum_data = [] then player_ctx else
  match alookup player_ctx.name vacuum_data with
  | none => player_ctx
  | some boost_info =>
    let bs := fun (v : Option ℚ) => v.map (fun x => roundTo 1 (x * boost_info.boost))
    { player_ctx with
      pts_L5 := bs player_ctx.pts_L5
      reb_L5 := bs player_ctx.reb_L5
      ast_L5 := bs player_ctx.ast_L5
      pra_L5 := bs player_ctx.pra_L5
      vacuum_boost := some (true, boost_info.boost, boost_info.reason,
        boost_info.absent_starter) }

/-! ## modules/new_modules/pace_adjuster.py -/

/-- A Python dict value in a stats record: a number or a boolean. -/
inductive PVal
  | num (q : ℚ)
  | bool (b : Bool)
deriving DecidableEq, Repr

/-- Python numeric coercion of a dict value (`True` counts as 1). -/
def ratOfPVal : PVal → ℚ
  | .num q => q
  | .bool b => if b then 1 else 0

/-- A `player_stats` dict. -/
abbrev PStats : Type := List (String × PVal)

/-- `PaceAdjuster.calculate_game_pace` (pace_adjuster.py, lines 13-17);
`pace_data` is the instance's `TEAM_PACE_DATA` table. -/
def calculateGamePace (pace_data : List (String × ℚ)) (home_team away_team : String) : ℚ :=
  ((alookup home_team pace_data).getD 100 + (alookup away_team pace_data).getD 100) / 2

def volumeStats : List String := ["pts_L5", "reb_L5", "ast_L5", "pra_L5"]

/-- The loop body of `adjust_player_stats` over one volume-stat key:
`if stat in adjusted and adjusted[stat] > 0: adjusted[stat] = round(...)`. -/
def paceVolumeStep (pace_factor : ℚ) (adj : PStats) (stat : String) : PStats :=
  match alookup stat adj with
  | some v =>
    if ratOfPVal v > 0 then updateKey adj stat (.num (roundTo 1 (ratOfPVal v * pace_factor)))
    else adj
  | none => adj

/-- `PaceAdjuster.adjust_player_stats` (pace_adjuster.py, lines 19-42). -/
def adjustPlayerStats (pace_data : List (String × ℚ)) (player_stats : PStats)
    (home_team away_team : String) : PStats :=
  if player_stats = ([] : PStats) ∨ home_team = "" ∨ away_team = "" then player_stats else
  let game_pace := calculateGamePace pace_data home_team away_team
  let pace_factor := game_pace / 100
  let adjusted := volumeStats.foldl (paceVolumeStep pace_factor) player_stats
  let adjusted := updateKey adjusted "pace_adjusted" (.bool true)
  let adjusted := updateKey adjusted "game_pace" (.num (roundTo 1 game_pace))
  updateKey adjusted "pace_factor" (.num (roundTo 3 pace_factor))

/-! ## modules/new_modules/thesis_engine.py -/

/-- The per-player context dict consumed by `ThesisEngine` generators.
`name` is read with a raising access (`player_ctx['name']`) and is a plain
field; every other key is read with `dict.get` and is optional.  The key
`player_class` is modelled by the field `player_cls`. -/
structure PlayerCtxT where
  name : String
  id : Option String := none
  pos : Option String := none
  role : Option String := none
  min_avg : Option ℚ := none
  usg : Option ℚ := none
  ppg : Option ℚ := none
  rpg : Option ℚ := none
  apg : Option ℚ := none
  pra : Option ℚ := none
  ast_pct : Option ℚ := none
  dvp_reb : Option ℚ := none
  dvp_pts : Option ℚ := none
  dvp_ast : Option ℚ := none
  player_cls : Option String := none
  team : Option String := none
  last_5_ppg : Option ℚ := none
  last_5_rpg : Option ℚ := none
  last_5_apg : Option ℚ := none
  last_5_pra : Option ℚ := none
  last_5_min_avg : Option ℚ := none
deriving DecidableEq, Repr

/-- The game-context dict (`game_ctx`). -/
structure GameCtx where
  home_team : Option String := none
  away_team : Option String := none
  spread : Option ℚ := none
  total : Option ℚ := none
  pace : Option ℚ := none
deriving DecidableEq, Repr

/-- A generated thesis.  The float-formatted `reason` and `evidences`
strings are not modelled; `weights` is the factor-breakdown dict. -/
structure ThesisOut where
  player : String
  player_id : Option String := none
  market : String
  confidence : ℚ
  weights : List (String × ℚ) := []
  thesis_type : String
  suggested_line : Option ℚ := none
  is_risk : Option Bool := none
deriving DecidableEq, Repr

/-- `ThesisEngine.weights` (thesis_engine.py, lines 34-40). -/
def thesisWeights : List (String × ℚ) :=
  [("DvP", 3/10), ("Pace", 2/10), ("Role", 15/100), ("PlayerClass", 2/10),
   ("Usage", 15/100)]

/-- `ThesisEngine.position_overrides` (thesis_engine.py, lines 43-48). -/
def positionOverrides : List (String × String) :=
  [("LeBron James", "SF"), ("Nikola Jokic", "C"), ("Luka Doncic", "PG"),
   ("Giannis Antetokounmpo", "PF")]

/-- `ThesisEngine.get_player_position` (thesis_engine.py, lines 60-62). -/
def getPlayerPosition (player_name : String) (default_pos : String) : String :=
  (alookup player_name positionOverrides).getD default_pos

/-- `ThesisEngine.calculate_dvp_factor` (thesis_engine.py, lines 75-91); the
`pd.isna` branch for a float NaN has no counterpart in the rational model. -/
def calculateDvpFactor (dvp_value : ℚ) (is_favorable : Bool) : ℚ :=
  if is_favorable then
    if dvp_value > 1 then 1 + (dvp_value - 1) * (3/10) else 7/10 + dvp_value * (3/10)
  else
    if dvp_value < 1 then 7/10 + dvp_value * (3/10) else 1 + (dvp_value - 1) * (3/10)

/-- The shared role multiplier of the `suggest_*_line` helpers. -/
def suggestRoleMultiplier (p : PlayerCtxT) : ℚ :=
  let role := p.role.getD "bench"
  if role = "starter" then 1 else if role = "rotation" then 9/10 else 8/10

/-- `ThesisEngine.suggest_points_line` (thesis_engine.py, lines 518-533). -/
def suggestPointsLine (p : PlayerCtxT) : ℚ :=
  let season_ppg := p.ppg.getD 0
  let last_5_ppg := p.last_5_ppg.getD season_ppg
  roundTo 1 (max season_ppg last_5_ppg * suggestRoleMultiplier p)

/-- `ThesisEngine.suggest_rebound_line` (thesis_engine.py, lines 535-549). -/
def suggestReboundLine (p : PlayerCtxT) : ℚ :=
  let season_rpg := p.rpg.getD 0
  let last_5_rpg := p.last_5_rpg.getD season_rpg
  roundTo 1 (max season_rpg last_5_rpg * suggestRoleMultiplier p)

/-- `ThesisEngine.suggest_assist_line` (thesis_engine.py, lines 551-565). -/
def suggestAssistLine (p : PlayerCtxT) : ℚ :=
  let season_apg := p.apg.getD 0
  let last_5_apg := p.last_5_apg.getD season_apg
  roundTo 1 (max season_apg last_5_apg * suggestRoleMultiplier p)

/-- `ThesisEngine.suggest_pra_line` (thesis_engine.py, lines 567-581). -/
def suggestPraLine (p : PlayerCtxT) : ℚ :=
  let season_pra := p.pra.getD 0
  let last_5_pra := p.last_5_pra.getD season_pra
  roundTo 1 (max season_pra last_5_pra * suggestRoleMultiplier p)

/-- `min(max(base * multiplier, 0), 1)` followed by `round(confidence, 2)`,
the shared clamp-and-round of every generator. -/
def clampRound2 (x : ℚ) : ℚ := roundTo 2 (min (max x 0) 1)

/-- Weighted-base accumulation over the factor list, with a membership test
against `ThesisEngine.weights` (the default `0.1` of `.get` is dead code
kept for fidelity). -/
def weightedBase (base0 : ℚ) (factors : List (String × ℚ)) : ℚ :=
  factors.foldl (fun b kv =>
    if (alookup kv.1 thesisWeights).isSome then
      b + (kv.2 - 1) * (alookup kv.1 thesisWeights).getD (1/10)
    else b) base0

/-- Flat-rate base accumulation (`ValueHunter` 0.2, `PaceBoost` 0.25). -/
def flatBase (base0 rate : ℚ) (factors : List (String × ℚ)) : ℚ :=
  factors.foldl (fun b kv => b + (kv.2 - 1) * rate) base0

/-- `ThesisEngine.generate_big_rebound_thesis` (thesis_engine.py, lines 93-166). -/
def generateBigReboundThesis (p : PlayerCtxT) (g : GameCtx) : Option ThesisOut :=
  let pos := getPlayerPosition p.name (p.pos.getD "")
  if pos ∉ ["PF", "C"] then none else
  let player_cls := p.player_cls.getD ""
  if ¬strHasSub player_cls "GLASS_BANGER" ∧ ¬strHasSub player_cls "REBOUNDER" then none else
  let dvp_reb := p.dvp_reb.getD 1
  let f1 : List (String × ℚ) :=
    if dvp_reb > 1 then [("DvP", calculateDvpFactor dvp_reb true)] else []
  let pace := g.pace.getD 100
  let f2 : List (String × ℚ) :=
    if pace > 100 then [("Pace", min (1 + (pace - 100) * (1/100)) (13/10))] else []
  let role := p.role.getD "bench"
  let f3 : List (String × ℚ) := [("Role", if role = "starter" then 1 else 9/10)]
  let f4 : List (String × ℚ) :=
    [("PlayerClass", if strHasSub player_cls "GLASS_BANGER" then 12/10 else 1)]
  let usage := p.usg.getD 0
  let f5 : List (String × ℚ) :=
    if usage > 18 then [("Usage", min (1 + (usage - 18) * (1/100)) (12/10))] else []
  let confidence_factors := f1 ++ f2 ++ f3 ++ f4 ++ f5
  if confidence_factors = [] then none else
  let confidence := clampRound2 (weightedBase (1/2) confidence_factors * 1)
  some { player := p.name, player_id := p.id, market := "REB", confidence := confidence,
         weights := confidence_factors, thesis_type := "BigRebound",
         suggested_line := some (suggestReboundLine p) }

/-- `ThesisEngine.generate_assist_matchup_thesis` (thesis_engine.py, lines 168-240). -/
def generateAssistMatchupThesis (p : PlayerCtxT) (g : GameCtx) : Option ThesisOut :=
  let pos := getPlayerPosition p.name (p.pos.getD "")
  if pos ∉ ["PG", "SG"] then none else
  let player_cls := p.player_cls.getD ""
  if ¬strHasSub player_cls "FLOOR_GENERAL" ∧ ¬strHasSub player_cls "PLAYMAKER" then none else
  let spread := |g.spread.getD 0|
  let f1 : List (String × ℚ) :=
    [("GameContext", if spread ≤ 5 then 12/10 else if spread ≤ 8 then 1 else 8/10)]
  let ast_pct := p.ast_pct.getD 0
  let f2 : List (String × ℚ) :=
    if ast_pct > 20 then [("PlayerClass", min (1 + (ast_pct - 20) * (1/100)) (13/10))] else []
  let dvp_ast := p.dvp_ast.getD 1
  let f3 : List (String × ℚ) :=
    if dvp_ast > 1 then [("DvP", calculateDvpFactor dvp_ast true)] else []
  let role := p.role.getD "bench"
  let f4 : List (String × ℚ) := [("Role", if role = "starter" then 11/10 else 9/10)]
  let confidence_factors := f1 ++ f2 ++ f3 ++ f4
  if confidence_factors = [] then none else
  let confidence := clampRound2 (weightedBase (1/2) confidence_factors * 1)
  some { player := p.name, player_id := p.id, market := "AST", confidence := confidence,
         weights := confidence_factors, thesis_type := "AssistMatchup",
         suggested_line := some (suggestAssistLine p) }

/-- `ThesisEngine.generate_scorer_line_thesis` (thesis_engine.py, lines 242-313). -/
def generateScorerLineThesis (p : PlayerCtxT) (g : GameCtx) : Option ThesisOut :=
  let pos := getPlayerPosition p.name (p.pos.getD "")
  if pos ∉ ["SG", "SF"] then none else
  let player_cls := p.player_cls.getD ""
  if ¬strHasSub player_cls "SCORER" ∧ ¬strHasSub player_cls "SHOOTER" ∧
      ¬strHasSub player_cls "VOLUME" then none else
  let dvp_pts := p.dvp_pts.getD 1
  let f1 : List (String × ℚ) :=
    if dvp_pts > 1 then [("DvP", calculateDvpFactor dvp_pts true)] else []
  let usage := p.usg.getD 0
  let f2 : List (String × ℚ) :=
    if usage > 22 then [("Usage", min (1 + (usage - 22) * (15/1000)) (13/10))] else []
  let f3 : List (String × ℚ) :=
    [("PlayerClass", if strHasSub player_cls "SCORER" then 12/10 else 1)]
  let total := g.total.getD 220
  let f4 : List (String × ℚ) := [("GameContext", if total > 225 then 11/10 else 1)]
  let recent_ppg := p.last_5_ppg.getD (p.ppg.getD 0)
  let season_ppg := p.ppg.getD 0
  let f5 : List (String × ℚ) :=
    [("Form", if recent_ppg > season_ppg * (11/10) then 115/100 else 1)]
  let confidence_factors := f1 ++ f2 ++ f3 ++ f4 ++ f5
  let confidence := clampRound2 (weightedBase (55/100) confidence_factors * 1)
  some { player := p.name, player_id := p.id, market := "PTS", confidence := confidence,
         weights := confidence_factors, thesis_type := "ScorerLine",
         suggested_line := some (suggestPointsLine p) }

/-- `ThesisEngine.generate_value_hunter_thesis` (thesis_engine.py, lines 315-386). -/
def generateValueHunterThesis (p : PlayerCtxT) (g : GameCtx) : Option ThesisOut :=
  let role := p.role.getD "bench"
  if role ∉ ["bench", "rotation"] then none else
  let min_avg := p.min_avg.getD 0
  if min_avg < 15 then none else
  let pra := p.pra.getD 0
  let pra_per_min := if min_avg > 0 then pra / min_avg else 0
  let f1 : List (String × ℚ) :=
    if pra_per_min > 8/10 then
      [("Efficiency", min (1 + (pra_per_min - 8/10) * (1/2)) (13/10))] else []
  let last_5_min := p.last_5_min_avg.getD min_avg
  let f2 : List (String × ℚ) :=
    [("Trend", if last_5_min > min_avg * (11/10) then 12/10 else 1)]
  let spread := |g.spread.getD 0|
  let f3 : List (String × ℚ) := [("GameContext", if spread > 12 then 115/100 else 1)]
  let player_cls := p.player_cls.getD ""
  let f4 : List (String × ℚ) :=
    [("PlayerClass",
      if strHasSub player_cls "BENCH" || strHasSub player_cls "SPARK" then 115/100 else 1)]
  let confidence_factors := f1 ++ f2 ++ f3 ++ f4
  let confidence := clampRound2 (flatBase (45/100) (2/10) confidence_factors * (9/10))
  some { player := p.name, player_id := p.id, market := "PRA", confidence := confidence,
         weights := confidence_factors, thesis_type := "ValueHunter",
         suggested_line := some (suggestPraLine p) }

/-- `ThesisEngine.generate_pace_boost_thesis` (thesis_engine.py, lines 388-457). -/
def generatePaceBoostThesis (p : PlayerCtxT) (g : GameCtx) : Option ThesisOut :=
  let pace := g.pace.getD 100
  if pace < 100 then none else
  let player_cls := p.player_cls.getD ""
  if ¬(strHasSub player_cls "RUNNER" || strHasSub player_cls "TRANSITION" ||
      strHasSub player_cls "ATHLETIC" || strHasSub player_cls "YOUNG") then none else
  let f1 : List (String × ℚ) := [("Pace", min (1 + (pace - 100) * (1/100)) (13/10))]
  let f2 : List (String × ℚ) := [("Matchup", 11/10)]
  let pos := getPlayerPosition p.name (p.pos.getD "")
  let f3 : List (String × ℚ) :=
    [("Position", if pos ∈ ["PG", "SG"] then 11/10 else if pos = "SF" then 105/100 else 1)]
  let confidence_factors := f1 ++ f2 ++ f3
  let ms : String × Option ℚ :=
    if strHasSub player_cls "PASS" || strHasSub player_cls "PLAYMAKER" then
      ("AST", some (suggestAssistLine p))
    else if strHasSub player_cls "SCORER" then ("PTS", some (suggestPointsLine p))
    else ("PRA", some (suggestPraLine p))
  let confidence := clampRound2 (flatBase (1/2) (25/100) confidence_factors * (85/100))
  some { player := p.name, player_id := p.id, market := ms.1, confidence := confidence,
         weights := confidence_factors, thesis_type := "PaceBoost",
         suggested_line := ms.2 }

/-- `ThesisEngine.generate_blowout_risk_thesis` (thesis_engine.py, lines 459-515). -/
def generateBlowoutRiskThesis (p : PlayerCtxT) (g : GameCtx) : Option ThesisOut :=
  let spread := |g.spread.getD 0|
  if spread < 12 then none else
  let player_team := p.team.getD ""
  let home_team := g.home_team.getD ""
  let away_team := g.away_team.getD ""
  let is_underdog :=
    (player_team = home_team ∧ g.spread.getD 0 > 0) ∨
    (player_team = away_team ∧ g.spread.getD 0 < 0)
  let role := p.role.getD "bench"
  let risk_factor : ℚ :=
    if role = "starter" ∧ is_underdog then 7/10
    else if role = "starter" then 85/100
    else if role ∈ ["bench", "rotation"] ∧ ¬is_underdog then 11/10
    else 1
  let confidence_factors : List (String × ℚ) := [("BlowoutRisk", risk_factor)]
  some { player := p.name, player_id := p.id, market := "RISK",
         confidence := roundTo 2 (3/10), weights := confidence_factors,
         thesis_type := "BlowoutRisk", suggested_line := none, is_risk := some true }

/-- The generator loop body of `generate_all_theses`: keep a produced thesis
when its confidence clears 0.4 or it is the always-kept `BlowoutRisk`. -/
def genStep (p : PlayerCtxT) (g : GameCtx) (acc : List ThesisOut)
    (gen : PlayerCtxT → GameCtx → Option ThesisOut) : List ThesisOut :=
  match gen p g with
  | some thesis =>
    if thesis.confidence > 4/10 ∨ thesis.thesis_type = "BlowoutRisk" then acc ++ [thesis]
    else acc
  | none => acc

/-- `ThesisEngine.generate_all_theses` (thesis_engine.py, lines 583-611). -/
def generateAllTheses (p : PlayerCtxT) (g : GameCtx) : List ThesisOut :=
  let gens : List (PlayerCtxT → GameCtx → Option ThesisOut) :=
    [generateBigReboundThesis, generateAssistMatchupThesis, generateScorerLineThesis,
     generateValueHunterThesis, generatePaceBoostThesis, generateBlowoutRiskThesis]
  let theses := gens.foldl (genStep p g) []
  (sortDescBy (fun t => t.confidence) theses).take 3

/-! ## modules/new_modules/strategy_engine.py (well-formed-record model)

A thesis dict entering the Strategy Engine carries the keys the engine
reads with raising accesses (`player`, `confidence`, `market`,
`thesis_type`) as plain fields; enrichment keys added along the pipeline
are `Option` fields.  `pctx_team`/`pctx_role` model
`thesis['player_ctx'].get('team'/'role', '')`.  The presentation-only
`selection_score` and `category_config` keys are not modelled. -/

structure SRec where
  player : String
  confidence : ℚ
  market : String
  thesis_type : String
  pctx_team : Option String := none
  pctx_role : Option String := none
  player_position : Option String := none
  category : Option String := none
  player_team : Option String := none
  player_role : Option String := none
  strategy_category : Option String := none
  adjusted_confidence : Option ℚ := none
  score_adjustment : Option ℚ := none
  identified_strategy : Option String := none
  strategy_description : Option String := none
deriving DecidableEq, Repr

/-- The four strategy buckets. -/
inductive SCat
  | conservadora
  | ousada
  | banco
  | explosao
deriving DecidableEq, Repr

def SCat.name : SCat → String
  | .conservadora => "conservadora"
  | .ousada => "ousada"
  | .banco => "banco"
  | .explosao => "explosao"

/-- One entry of `StrategyEngine.category_configs` (strategy_engine.py,
lines 25-62); `description` and `color` are presentation only. -/
structure CategoryConfig where
  min_confidence : ℚ
  max_players : ℕ
  allowed_markets : List String
  allowed_roles : List String
  priority_theses : List String
deriving DecidableEq, Repr

def categoryConfigs : SCat → CategoryConfig
  | .conservadora =>
    { min_confidence := 65/100, max_players := 4, allowed_markets := ["PTS", "REB"],
      allowed_roles := ["starter"], priority_theses := ["BigRebound", "ScorerLine"] }
  | .ousada =>
    { min_confidence := 6/10, max_players := 3,
      allowed_markets := ["PRA", "REB+AST", "PTS+REB"],
      allowed_roles := ["starter", "rotation"],
      priority_theses := ["AssistMatchup", "PaceBoost"] }
  | .banco =>
    { min_confidence := 55/100, max_players := 3, allowed_markets := ["PRA", "PTS", "REB"],
      allowed_roles := ["bench", "rotation"], priority_theses := ["ValueHunter"] }
  | .explosao =>
    { min_confidence := 6/10, max_players := 2, allowed_markets := ["AST", "PTS", "REB"],
      allowed_roles := ["starter", "rotation", "bench"],
      priority_theses := ["PaceBoost", "AssistMatchup", "ScorerLine"] }

/-- `strategy_templates[...]['description']` lookup used when annotating
(`.get(strategy_name, {}).get('description', '')`). -/
def strategyDescription (strategy_name : String) : String :=
  (alookup strategy_name
    [("GLASS_BANGERS_TRIO", "Tripla de jogadores dominantes no garrafao"),
     ("THE_BATTERY", "Armador + Scorer do mesmo time"),
     ("BENCH_MOB", "Reservas com alto upside em garbage time"),
     ("SHOOTOUT_PAIR", "Scorers de times opostos em jogo rapido"),
     ("BLOWOUT_SPECIAL", "Jogadores beneficiados por blowout/garbage time")]).getD ""

/-- The engine's per-call selection state (`used_players`, `used_teams`,
`used_markets`; the latter two are `defaultdict(int)`). -/
structure SelState where
  used_players : List String := []
  used_teams : List (String × ℕ) := []
  used_markets : List (String × ℕ) := []
deriving DecidableEq, Repr

/-- `reset_selection` yields this state. -/
def emptySelState : SelState := {}

/-- `defaultdict` read: inserts the key with count 0 when absent. -/
def touchCount (l : List (String × ℕ)) (k : String) : List (String × ℕ) :=
  if (alookup k l).isSome then l else l ++ [(k, 0)]

/-- `defaultdict` `l[k] += 1`. -/
def bumpCount (l : List (String × ℕ)) (k : String) : List (String × ℕ) :=
  if (alookup k l).isSome then l.map (fun kv => if kv.1 = k then (k, kv.2 + 1) else kv)
  else l ++ [(k, 1)]

def countOf (l : List (String × ℕ)) (k : String) : ℕ := (alookup k l).getD 0

/-- `StrategyEngine._determine_category` (strategy_engine.py, lines 148-186). -/
def determineCategory (t : SRec) : Option String :=
  let thesis_type := t.thesis_type
  let market := t.market
  let confidence := t.confidence
  let role := t.pctx_role.getD ""
  if confidence ≥ 65/100 ∧ role = "starter" ∧ market ∈ ["PTS", "REB"] ∧
      thesis_type ∈ ["BigRebound", "ScorerLine"] then some "conservadora"
  else if confidence ≥ 6/10 ∧ role ∈ ["starter", "rotation"] ∧
      market ∈ ["PRA", "REB+AST", "PTS+REB"] ∧
      thesis_type ∈ ["AssistMatchup", "PaceBoost"] then some "ousada"
  else if confidence ≥ 55/100 ∧ role ∈ ["bench", "rotation"] ∧
      thesis_type = "ValueHunter" then some "banco"
  else if confidence ≥ 6/10 ∧ thesis_type ∈ ["PaceBoost", "AssistMatchup"] then
    some "explosao"
  else if confidence ≥ 7/10 ∧ role = "starter" then some "conservadora"
  else if confidence ≥ 7/10 ∧ role ∈ ["rotation", "bench"] then some "banco"
  else none

/-- The four candidate pools built by `categorize_theses`. -/
structure Categorized where
  conservadora_candidates : List SRec := []
  ousada_candidates : List SRec := []
  banco_candidates : List SRec := []
  explosao_candidates : List SRec := []
deriving DecidableEq, Repr

def addToPool (c : Categorized) (category : String) (t : SRec) : Categorized :=
  if category = "conservadora" then
    { c with conservadora_candidates := c.conservadora_candidates ++ [t] }
  else if category = "ousada" then
    { c with ousada_candidates := c.ousada_candidates ++ [t] }
  else if category = "banco" then
    { c with banco_candidates := c.banco_candidates ++ [t] }
  else if category = "explosao" then
    { c with explosao_candidates := c.explosao_candidates ++ [t] }
  else c

/-- `StrategyEngine.categorize_theses` (strategy_engine.py, lines 109-146).
`all_theses` is the dict player-name -> thesis list, in insertion order. -/
def categorizeTheses (all_theses : List (String × List SRec)) (game_ctx : GameCtx) :
    Categorized :=
  all_theses.foldl (fun acc kv =>
    kv.2.foldl (fun acc thesis =>
      if thesis.thesis_type = "BlowoutRisk" then acc else
      let player_team := thesis.pctx_team.getD ""
      let player_role := thesis.pctx_role.getD ""
      match determineCategory thesis with
      | some category =>
        addToPool acc category
          { thesis with
            category := some category
            player_team := some player_team
            player_role := some player_role }
      | none => acc) acc) {}

/-- `StrategyEngine.select_for_category` (strategy_engine.py, lines 188-245).
The filter consults the call-entry state; the selection loop marks players,
teams, markets as used. -/
def selectForCategory (st : SelState) (candidates : List SRec) (category : SCat)
    (num_selections : ℕ) : List SRec × SelState :=
  let config := categoryConfigs category
  let filtered := candidates.filterMap (fun thesis =>
    if thesis.player ∈ st.used_players then none
    else if thesis.confidence < config.min_confidence then none
    else if config.allowed_roles ≠ [] ∧
        thesis.player_role.getD "" ∉ config.allowed_roles then none
    else if config.allowed_markets ≠ [] ∧ thesis.market ∉ config.allowed_markets then none
    else some (thesis,
      if thesis.thesis_type ∈ config.priority_theses then (12:ℚ)/10 else 1))
  if filtered = [] then ([], st) else
  let sorted_candidates := sortDescBy (fun x => x.1.confidence * x.2) filtered
  (sorted_candidates.take num_selections).foldl (fun acc x =>
    let thesis := x.1
    let st2 : SelState :=
      { used_players := acc.2.used_players ++ [thesis.player]
        used_teams := bumpCount acc.2.used_teams (thesis.player_team.getD "")
        used_markets := bumpCount acc.2.used_markets thesis.market }
    (acc.1 ++ [{ thesis with strategy_category := some category.name }], st2)) ([], st)

/-- `StrategyEngine.identify_strategy` (strategy_engine.py, lines 247-291). -/
def identifyStrategy (recommendations : List SRec) (game_ctx : GameCtx) : String :=
  if recommendations.length = 0 then "INDIVIDUAL_PLAY" else
  let markets := recommendations.map (fun r => r.market)
  let teams := recommendations.map (fun r => r.player_team.getD "")
  let big_men_count := (recommendations.filter (fun r =>
    (r.player_position.getD "") ∈ ["C", "PF"] ∧ r.market = "REB")).length
  if recommendations.length ≥ 2 ∧ big_men_count ≥ 2 then
    (if big_men_count ≥ 3 then "GLASS_BANGERS_TRIO" else "GLASS_BANGER_PAIR")
  else
  let positions := recommendations.map (fun r => r.player_position.getD "")
  if recommendations.length = 2 ∧ "PG" ∈ positions ∧
      positions.any (fun p => p ∈ ["SG", "SF"]) ∧ teams.dedup.length = 1 then
    "THE_BATTERY"
  else if recommendations.all (fun r => (r.player_role.getD "") ∈ ["bench", "rotation"]) then
    "BENCH_MOB"
  else if recommendations.length = 2 ∧ teams.dedup.length = 2 ∧
      markets.all (fun m => m = "PTS") ∧ game_ctx.pace.getD 0 > 100 then
    "SHOOTOUT_PAIR"
  else if |game_ctx.spread.getD 0| > 12 ∧
      recommendations.any (fun r => r.thesis_type = "ValueHunter") then
    "BLOWOUT_SPECIAL"
  else "CURATED_COMBO"

/-- `StrategyEngine.apply_correlation_adjustments` (strategy_engine.py,
lines 293-357).  Reading `self.used_teams[...]`/`self.used_markets[...]`
on a `defaultdict` inserts the key before `len` is taken, so the state is
threaded. -/
def applyCorrelationAdjustments (st : SelState) (recommendation : SRec)
    (game_ctx : GameCtx) : SRec × SelState :=
  let player_team := recommendation.player_team.getD ""
  let market := recommendation.market
  let ut := touchCount st.used_teams player_team
  let p1 : ℚ := if countOf ut player_team > 2 then -(15/100) else 0
  let um := touchCount st.used_markets market
  let p2 : ℚ := if countOf um market > 2 then -(1/10) else 0
  let spread := |game_ctx.spread.getD 0|
  let p3 : ℚ :=
    if spread > 10 ∧ recommendation.player_role = some "starter" then -(1/10) else 0
  let b1 : ℚ := if ut.length ≥ 3 then 1/10 else 0
  let b2 : ℚ := if um.length ≥ 3 then 8/100 else 0
  let b3 : ℚ := if spread ≤ 5 ∧ market = "PTS" then 5/100 else 0
  let score_adjustment := p1 + p2 + p3 + b1 + b2 + b3
  let score_adjustment := max (min score_adjustment (3/10)) (-(3/10))
  let original_confidence := recommendation.confidence
  let adjusted_confidence := original_confidence * (1 + score_adjustment)
  let adjusted_confidence := min (max adjusted_confidence 0) 1
  ({ recommendation with
      adjusted_confidence := some (roundTo 3 adjusted_confidence)
      score_adjustment := some (roundTo 3 score_adjustment) },
   { st with used_teams := ut, used_markets := um })

/-- Sequential `[self.apply_correlation_adjustments(r, game_ctx) for r in …]`. -/
def adjustAll (st : SelState) (recs : List SRec) (game_ctx : GameCtx) :
    List SRec × SelState :=
  recs.foldl (fun acc r =>
    let pr := applyCorrelationAdjustments acc.2 r game_ctx
    (acc.1 ++ [pr.1], pr.2)) ([], st)

/-- The `if recs: annotate with identified strategy` step of
`compose_recommendations`. -/
def annotateStrategy (recs : List SRec) (game_ctx : GameCtx) : List SRec :=
  if recs = [] then recs else
  let strategy_name := identifyStrategy recs game_ctx
  recs.map (fun r =>
    { r with identified_strategy := some strategy_name
             strategy_description := some (strategyDescription strategy_name) })

/-- The four composed buckets. -/
structure CompRecs where
  conservadora : List SRec := []
  ousada : List SRec := []
  banco : List SRec := []
  explosao : List SRec := []
deriving DecidableEq, Repr

def CompRecs.get (r : CompRecs) : SCat → List SRec
  | .conservadora => r.conservadora
  | .ousada => r.ousada
  | .banco => r.banco
  | .explosao => r.explosao

def CompRecs.set (r : CompRecs) : SCat → List SRec → CompRecs
  | .conservadora, l => { r with conservadora := l }
  | .ousada, l => { r with ousada := l }
  | .banco, l => { r with banco := l }
  | .explosao, l => { r with explosao := l }

/-- `rec.get('adjusted_confidence', rec['confidence'])`. -/
def recScore (r : SRec) : ℚ := r.adjusted_confidence.getD r.confidence

/-- State of `_ensure_cross_category_diversity`: the evolving bucket dict
plus `player_to_category`/`player_to_score` (one association list mapping a
player to its current category and score). -/
structure DedupState where
  recs : CompRecs
  assigned : List (String × SCat × ℚ)

/-- `player_to_category[player] = category; player_to_score[player] = score`
on an existing key. -/
def updAssigned (l : List (String × SCat × ℚ)) (p : String) (v : SCat × ℚ) :
    List (String × SCat × ℚ) :=
  l.map (fun kv => if kv.1 = p then (p, v) else kv)

/-- One iteration of the nested loops of `_ensure_cross_category_diversity`
(strategy_engine.py, lines 455-487) on the rec `e.2` seen in category `e.1`. -/
def dedupStep (st : DedupState) (e : SCat × SRec) : DedupState :=
  let category := e.1
  let player := e.2.player
  let score := recScore e.2
  match alookup player st.assigned with
  | none => { st with assigned := (player, category, score) :: st.assigned }
  | some (old_category, old_score) =>
    if score > old_score then
      { recs := st.recs.set old_category
          ((st.recs.get old_category).filter (fun r => r.player ≠ player))
        assigned := updAssigned st.assigned player (category, score) }
    else
      { recs := st.recs.set category
          ((st.recs.get category).filter (fun r => r.player ≠ player))
        assigned := st.assigned }

/-- The `(category, rec)` stream iterated by
`_ensure_cross_category_diversity`.  The outer loop walks the dict in
insertion order; a category's list is never mutated before that category
is reached (removals only ever target the current category or the earlier
category recorded in `player_to_category`), and reassigning
`recommendations[category]` does not affect the inner loop already
iterating the old list, so the iterated stream is the entry content. -/
def dedupStream (r : CompRecs) : List (SCat × SRec) :=
  r.conservadora.map (fun x => (SCat.conservadora, x)) ++
  r.ousada.map (fun x => (SCat.ousada, x)) ++
  r.banco.map (fun x => (SCat.banco, x)) ++
  r.explosao.map (fun x => (SCat.explosao, x))

/-- `StrategyEngine._ensure_cross_category_diversity` (strategy_engine.py,
lines 455-487). -/
def ensureCrossCategoryDiversity (r : CompRecs) : CompRecs :=
  ((dedupStream r).foldl dedupStep { recs := r, assigned := [] }).recs

/-- `StrategyEngine.compose_recommendations` (strategy_engine.py,
lines 359-453). -/
def composeRecommendations (all_theses : List (String × List SRec))
    (game_ctx : GameCtx) : CompRecs :=
  let st := emptySelState
  let categorized := categorizeTheses all_theses game_ctx
  let pc := selectForCategory st categorized.conservadora_candidates .conservadora 4
  let pc2 := adjustAll pc.2 pc.1 game_ctx
  let conservadora := annotateStrategy pc2.1 game_ctx
  let po := selectForCategory pc2.2 categorized.ousada_candidates .ousada 3
  let po2 := adjustAll po.2 po.1 game_ctx
  let ousada := annotateStrategy po2.1 game_ctx
  let pb := selectForCategory po2.2 categorized.banco_candidates .banco 3
  let pb2 := adjustAll pb.2 pb.1 game_ctx
  let banco := annotateStrategy pb2.1 game_ctx
  let pe := selectForCategory pb2.2 categorized.explosao_candidates .explosao 2
  let pe2 := adjustAll pe.2 pe.1 game_ctx
  let explosao := annotateStrategy pe2.1 game_ctx
  ensureCrossCategoryDiversity
    { conservadora := conservadora.take 4
      ousada := ousada.take 3
      banco := banco.take 3
      explosao := explosao.take 2 }

/-! ## modules/new_modules/daily_multiple.py -/

/-- A violation record returned by the injected
`correlation_validator.validate_pair` (only its `severity` key is read). -/
structure MViolation where
  severity : Option String := none
deriving DecidableEq, Repr

/-- A multiple-ticket leg as read by `DailyMultipleEngine._validate_multiple`. -/
structure MLeg where
  player_id : Option String := none
  team : Option String := none
  market : Option String := none
  score_final : Option ℚ := none
deriving DecidableEq, Repr

/-- The ordered index pairs `i < j` walked by the nested loops. -/
def pairsOf {α : Type} : List α → List (α × α)
  | [] => []
  | a :: as => as.map (fun b => (a, b)) ++ pairsOf as

/-- `multiple.remove(sorted(multiple, key=score_final)[0])`: drop the first
occurrence equal to the stably-first lowest-scored leg. -/
def removeLowestLeg (multiple : List MLeg) : List MLeg :=
  match sortAscBy (fun x => x.score_final.getD 0) multiple with
  | [] => multiple
  | x :: _ => multiple.erase x

theorem removeLowestLeg_cons_length (a : MLeg) (as : List MLeg) :
    (removeLowestLeg (a :: as)).length = as.length := by
  unfold removeLowestLeg
  have hperm := sortAscBy_perm (fun x : MLeg => x.score_final.getD 0) (a :: as)
  cases h : sortAscBy (fun x : MLeg => x.score_final.getD 0) (a :: as) with
  | nil =>
    rw [h] at hperm
    have := hperm.length_eq
    simp at this
  | cons x rest =>
    rw [h] at hperm
    have hx : x ∈ a :: as := hperm.mem_iff.mp (List.mem_cons_self x rest)
    have := List.length_erase_of_mem hx
    simp_all

/-- `DailyMultipleEngine._validate_multiple` (daily_multiple.py, lines
110-138), parameterized by the injected validator `vp`. -/
def validateMultiple (vp : MLeg → MLeg → Option MViolation) : List MLeg → List MLeg
  | [] => []
  | a :: as =>
    let violations := (pairsOf (a :: as)).filterMap (fun e => vp e.1 e.2)
    let critical_violations := violations.filter (fun v => v.severity = some "critical")
    if critical_violations = [] then a :: as
    else validateMultiple vp (removeLowestLeg (a :: as))
termination_by m => m.length
decreasing_by
  simp [removeLowestLeg_cons_length]

/-! ## modules/new_modules/multipla_do_dia.py -/

/-- A recommendation dict as read by `MultiplaDoDia` (keys `player_id`,
`team`, `confidence`, plus the `strategy` tag it writes). -/
structure GMRec where
  player_id : Option String := none
  team : Option String := none
  confidence : Option ℚ := none
  strategy : Option String := none
deriving DecidableEq, Repr

/-- The four-bucket dict returned by the injected strategy engine's
`compose_recommendations`, in insertion order. -/
structure GDCompose where
  conservadora : List GMRec := []
  ousada : List GMRec := []
  banco : List GMRec := []
  explosao : List GMRec := []
deriving DecidableEq, Repr

/-- One entry of `game_data_list`. -/
structure GameData where
  home : Option String := none
  away : Option String := none
  spread : Option ℚ := none
  total : Option ℚ := none
  pace : Option ℚ := none
  gameId : Option String := none
deriving DecidableEq, Repr

/-- The `matchup_context` dict built in `generate_multipla`. -/
structure MatchupContext where
  home_team : Option String
  away_team : Option String
  spread : ℚ
  total : ℚ
  pace : ℚ
  gameId : Option String
deriving DecidableEq, Repr

def mkMatchupContext (game_data : GameData) : MatchupContext :=
  { home_team := game_data.home
    away_team := game_data.away
    spread := game_data.spread.getD 0
    total := game_data.total.getD 220
    pace := game_data.pace.getD 100
    gameId := game_data.gameId }

def setStrategy (category : String) (r : GMRec) : GMRec :=
  { r with strategy := some category }

/-- `self.max_players_per_team` of `MultiplaDoDia`. -/
def maxPlayersPerTeam : ℕ := 4

/-- The selection loop of `MultiplaDoDia._apply_diversification`
(multipla_do_dia.py, lines 130-151): walk sorted candidates, skip selected
players and teams at the cap, stop once `max_legs` are selected. -/
def diversifyLoop (max_legs : ℕ) :
    List GMRec → List GMRec → List (Option String × ℕ) → List GMRec
  | [], selected, _ => selected
  | r :: rest, selected, team_counts =>
    if r.player_id ∈ selected.map (fun s => s.player_id) then
      diversifyLoop max_legs rest selected team_counts
    else if (alookup r.team team_counts).getD 0 ≥ maxPlayersPerTeam then
      diversifyLoop max_legs rest selected team_counts
    else
      let selected2 := selected ++ [r]
      let team_counts2 :=
        updateKey team_counts r.team ((alookup r.team team_counts).getD 0 + 1)
      if selected2.length ≥ max_legs then selected2
      else diversifyLoop max_legs rest selected2 team_counts2

/-- `MultiplaDoDia._apply_diversification` (multipla_do_dia.py, lines 121-152). -/
def applyDiversification (recommendations : List GMRec) (max_legs : ℕ) : List GMRec :=
  if recommendations = [] then recommendations else
  diversifyLoop max_legs
    (sortDescBy (fun r => r.confidence.getD 0) recommendations) [] []

/-- The body of the `try` block of `MultiplaDoDia.generate_multipla`: the
per-game loop calling the injected engine's `compose_recommendations`
(which may raise) and accumulating the flattened, strategy-tagged
recommendations. -/
def runMultiplaBatch (compose : MatchupContext → Except String GDCompose)
    (game_data_list : List GameData) : Except String (List GMRec × List GMRec) :=
  game_data_list.foldlM (fun acc game_data => do
    let matchup_context := mkMatchupContext game_data
    let rd ← compose matchup_context
    let all_recommendations :=
      rd.conservadora.map (setStrategy "conservadora") ++
      rd.ousada.map (setStrategy "ousada") ++
      rd.banco.map (setStrategy "banco") ++
      rd.explosao.map (setStrategy "explosao")
    if all_recommendations = [] then pure acc else
    let conservadora_recs :=
      all_recommendations.filter (fun r => r.strategy = some "conservadora")
    let ousada_recs := all_recommendations.filter (fun r => r.strategy = some "ousada")
    let banco_recs := all_recommendations.filter (fun r => r.strategy = some "banco")
    let explosao_recs :=
      all_recommendations.filter (fun r => r.strategy = some "explosao")
    pure (acc.1 ++ conservadora_recs,
      acc.2 ++ ousada_recs ++ banco_recs ++ explosao_recs)) ([], [])

/-- The result dict of `generate_multipla`. -/
structure MultiplaResult where
  conservadora : List GMRec
  ousada : List GMRec
deriving DecidableEq, Repr

/-- `MultiplaDoDia.generate_multipla` (multipla_do_dia.py, lines 36-119) with
the injected `strategy_engine.compose_recommendations` as the fallible
parameter `compose`; the surrounding `try/except` maps any exception to
empty buckets for the whole batch. -/
def generateMultipla (compose : MatchupContext → Except String GDCompose)
    (game_data_list : List GameData) : MultiplaResult :=
  match runMultiplaBatch compose game_data_list with
  | .error _ => { conservadora := [], ousada := [] }
  | .ok acc =>
    let conservadora := applyDiversification acc.1 6
    let ousada := applyDiversification acc.2 4
    let conservadora := if conservadora.length < 3 then conservadora.take 3 else conservadora
    let ousada := if ousada.length < 2 then ousada.take 2 else ousada
    let conservadora_ids := conservadora.map (fun r => r.player_id)
    { conservadora := conservadora
      ousada := ousada.filter (fun r => r.player_id ∉ conservadora_ids) }

/-! ## strategy_engine.py: raw-dict (exception-aware) model

The same pipeline over raw thesis dicts whose keys may all be absent: a
raising Python access `d[k]` becomes `getK`, so
`composeRecommendationsE` returns `.error "KeyError"` exactly when the
source call raises, and `.ok` with the four buckets otherwise. -/

/-- Python `d[k]`: raises `KeyError` when the key is absent. -/
def getK {α : Type} : Option α → Except String α
  | some a => .ok a
  | none => .error "KeyError"

/-- A raw thesis dict: every key optional. -/
structure RawRec where
  player : Option String := none
  confidence : Option ℚ := none
  market : Option String := none
  thesis_type : Option String := none
  pctx_team : Option String := none
  pctx_role : Option String := none
  player_position : Option String := none
  category : Option String := none
  player_team : Option String := none
  player_role : Option String := none
  strategy_category : Option String := none
  adjusted_confidence : Option ℚ := none
  score_adjustment : Option ℚ := none
  identified_strategy : Option String := none
  strategy_description : Option String := none
deriving DecidableEq, Repr

/-- `_determine_category` over a raw thesis (all reads are `dict.get`). -/
def determineCategoryRaw (t : RawRec) : Option String :=
  let thesis_type := t.thesis_type.getD ""
  let market := t.market.getD ""
  let confidence := t.confidence.getD 0
  let role := t.pctx_role.getD ""
  if confidence ≥ 65/100 ∧ role = "starter" ∧ market ∈ ["PTS", "REB"] ∧
      thesis_type ∈ ["BigRebound", "ScorerLine"] then some "conservadora"
  else if confidence ≥ 6/10 ∧ role ∈ ["starter", "rotation"] ∧
      market ∈ ["PRA", "REB+AST", "PTS+REB"] ∧
      thesis_type ∈ ["AssistMatchup", "PaceBoost"] then some "ousada"
  else if confidence ≥ 55/100 ∧ role ∈ ["bench", "rotation"] ∧
      thesis_type = "ValueHunter" then some "banco"
  else if confidence ≥ 6/10 ∧ thesis_type ∈ ["PaceBoost", "AssistMatchup"] then
    some "explosao"
  else if confidence ≥ 7/10 ∧ role = "starter" then some "conservadora"
  else if confidence ≥ 7/10 ∧ role ∈ ["rotation", "bench"] then some "banco"
  else none

structure RawCategorized where
  conservadora_candidates : List RawRec := []
  ousada_candidates : List RawRec := []
  banco_candidates : List RawRec := []
  explosao_candidates : List RawRec := []
deriving DecidableEq, Repr

def addToPoolRaw (c : RawCategorized) (category : String) (t : RawRec) : RawCategorized :=
  if category = "conservadora" then
    { c with conservadora_candidates := c.conservadora_candidates ++ [t] }
  else if category = "ousada" then
    { c with ousada_candidates := c.ousada_candidates ++ [t] }
  else if category = "banco" then
    { c with banco_candidates := c.banco_candidates ++ [t] }
  else if category = "explosao" then
    { c with explosao_candidates := c.explosao_candidates ++ [t] }
  else c

/-- `categorize_theses` over raw theses (only `dict.get` reads: total). -/
def categorizeThesesRaw (all_theses : List (String × List RawRec)) (game_ctx : GameCtx) :
    RawCategorized :=
  all_theses.foldl (fun acc kv =>
    kv.2.foldl (fun acc thesis =>
      if thesis.thesis_type = some "BlowoutRisk" then acc else
      let player_team := thesis.pctx_team.getD ""
      let player_role := thesis.pctx_role.getD ""
      match determineCategoryRaw thesis with
      | some category =>
        addToPoolRaw acc category
          { thesis with
            category := some category
            player_team := some player_team
            player_role := some player_role }
      | none => acc) acc) {}

/-- `select_for_category` over raw theses: `thesis['player']`,
`thesis['confidence']`, `thesis['market']`, `thesis['thesis_type']` are
raising accesses, in the source's evaluation order. -/
def selectForCategoryRaw (st : SelState) (candidates : List RawRec) (category : SCat)
    (num_selections : ℕ) : Except String (List RawRec × SelState) := do
  let config := categoryConfigs category
  let filtered ← candidates.foldlM (fun (acc : List (RawRec × ℚ × ℚ)) thesis => do
    let p ← getK thesis.player
    if p ∈ st.used_players then pure acc
    else do
      let c ← getK thesis.confidence
      if c < config.min_confidence then pure acc
      else if config.allowed_roles ≠ [] ∧
          thesis.player_role.getD "" ∉ config.allowed_roles then pure acc
      else do
        let m ← getK thesis.market
        if config.allowed_markets ≠ [] ∧ m ∉ config.allowed_markets then pure acc
        else do
          let tt ← getK thesis.thesis_type
          let boost : ℚ := if tt ∈ config.priority_theses then 12/10 else 1
          pure (acc ++ [(thesis, c, boost)])) []
  if filtered = [] then pure ([], st) else
  let sorted_candidates := sortDescBy (fun x => x.2.1 * x.2.2) filtered
  (sorted_candidates.take num_selections).foldlM (fun acc x => do
    let thesis := x.1
    let p ← getK thesis.player
    let m ← getK thesis.market
    let st2 : SelState :=
      { used_players := acc.2.used_players ++ [p]
        used_teams := bumpCount acc.2.used_teams (thesis.player_team.getD "")
        used_markets := bumpCount acc.2.used_markets m }
    pure (acc.1 ++ [{ thesis with strategy_category := some category.name }], st2))
    (([] : List RawRec), st)

/-- `apply_correlation_adjustments` over a raw rec: `rec['market']` and
`rec['confidence']` are raising accesses. -/
def applyCorrelationAdjustmentsRaw (st : SelState) (recommendation : RawRec)
    (game_ctx : GameCtx) : Except String (RawRec × SelState) := do
  let player_team := recommendation.player_team.getD ""
  let market ← getK recommendation.market
  let ut := touchCount st.used_teams player_team
  let p1 : ℚ := if countOf ut player_team > 2 then -(15/100) else 0
  let um := touchCount st.used_markets market
  let p2 : ℚ := if countOf um market > 2 then -(1/10) else 0
  let spread := |game_ctx.spread.getD 0|
  let p3 : ℚ :=
    if spread > 10 ∧ recommendation.player_role = some "starter" then -(1/10) else 0
  let b1 : ℚ := if ut.length ≥ 3 then 1/10 else 0
  let b2 : ℚ := if um.length ≥ 3 then 8/100 else 0
  let b3 : ℚ := if spread ≤ 5 ∧ market = "PTS" then 5/100 else 0
  let score_adjustment := p1 + p2 + p3 + b1 + b2 + b3
  let score_adjustment := max (min score_adjustment (3/10)) (-(3/10))
  let original_confidence ← getK recommendation.confidence
  let adjusted_confidence := original_confidence * (1 + score_adjustment)
  let adjusted_confidence := min (max adjusted_confidence 0) 1
  pure ({ recommendation with
      adjusted_confidence := some (roundTo 3 adjusted_confidence)
      score_adjustment := some (roundTo 3 score_adjustment) },
    { st with used_teams := ut, used_markets := um })

def adjustAllRaw (st : SelState) (recs : List RawRec) (game_ctx : GameCtx) :
    Except String (List RawRec × SelState) :=
  recs.foldlM (fun acc r => do
    let pr ← applyCorrelationAdjustmentsRaw acc.2 r game_ctx
    pure (acc.1 ++ [pr.1], pr.2)) (([] : List RawRec), st)

/-- `identify_strategy` over raw recs: the upfront `r['player']`/`r['market']`
comprehensions raise on a missing key. -/
def identifyStrategyRaw (recommendations : List RawRec) (game_ctx : GameCtx) :
    Except String String := do
  if recommendations.length = 0 then pure "INDIVIDUAL_PLAY" else do
  let _players ← recommendations.mapM (fun r => getK r.player)
  let markets ← recommendations.mapM (fun r => getK r.market)
  let teams := recommendations.map (fun r => r.player_team.getD "")
  let pairs := recommendations.zip markets
  let big_men_count := (pairs.filter (fun rm =>
    (rm.1.player_position.getD "") ∈ ["C", "PF"] ∧ rm.2 = "REB")).length
  if recommendations.length ≥ 2 ∧ big_men_count ≥ 2 then
    pure (if big_men_count ≥ 3 then "GLASS_BANGERS_TRIO" else "GLASS_BANGER_PAIR")
  else
  let positions := recommendations.map (fun r => r.player_position.getD "")
  if recommendations.length = 2 ∧ "PG" ∈ positions ∧
      positions.any (fun p => p ∈ ["SG", "SF"]) ∧ teams.dedup.length = 1 then
    pure "THE_BATTERY"
  else if recommendations.all (fun r =>
      (r.player_role.getD "") ∈ ["bench", "rotation"]) then
    pure "BENCH_MOB"
  else if recommendations.length = 2 ∧ teams.dedup.length = 2 ∧
      markets.all (fun m => m = "PTS") ∧ game_ctx.pace.getD 0 > 100 then
    pure "SHOOTOUT_PAIR"
  else if |game_ctx.spread.getD 0| > 12 ∧
      recommendations.any (fun r => r.thesis_type = some "ValueHunter") then
    pure "BLOWOUT_SPECIAL"
  else pure "CURATED_COMBO"

def annotateStrategyRaw (recs : List RawRec) (game_ctx : GameCtx) :
    Except String (List RawRec) := do
  if recs = [] then pure recs else do
  let strategy_name ← identifyStrategyRaw recs game_ctx
  pure (recs.map (fun r =>
    { r with identified_strategy := some strategy_name
             strategy_description := some (strategyDescription strategy_name) }))

structure RawCompRecs where
  conservadora : List RawRec := []
  ousada : List RawRec := []
  banco : List RawRec := []
  explosao : List RawRec := []
deriving DecidableEq, Repr

def RawCompRecs.get (r : RawCompRecs) : SCat → List RawRec
  | .conservadora => r.conservadora
  | .ousada => r.ousada
  | .banco => r.banco
  | .explosao => r.explosao

def RawCompRecs.set (r : RawCompRecs) : SCat → List RawRec → RawCompRecs
  | .conservadora, l => { r with conservadora := l }
  | .ousada, l => { r with ousada := l }
  | .banco, l => { r with banco := l }
  | .explosao, l => { r with explosao := l }

structure RawDedupState where
  recs : RawCompRecs
  assigned : List (String × SCat × ℚ)

def updAssignedRaw (l : List (String × SCat × ℚ)) (p : String) (v : SCat × ℚ) :
    List (String × SCat × ℚ) :=
  l.map (fun kv => if kv.1 = p then (p, v) else kv)

/-- The removal comprehension
`[r for r in recommendations[cat] if r['player'] != player]`: each element
access `r['player']` raises on a missing key. -/
def removeFromCategoryRaw (l : List RawRec) (player : String) :
    Except String (List RawRec) :=
  l.foldlM (fun acc r => do
    let rp ← getK r.player
    pure (if rp ≠ player then acc ++ [r] else acc)) []

/-- One iteration of `_ensure_cross_category_diversity` over raw recs;
`rec['player']` and the eager `rec['confidence']` default raise. -/
def dedupStepRaw (st : RawDedupState) (e : SCat × RawRec) :
    Except String RawDedupState := do
  let category := e.1
  let player ← getK e.2.player
  let c ← getK e.2.confidence
  let score := e.2.adjusted_confidence.getD c
  match alookup player st.assigned with
  | none => pure { st with assigned := (player, category, score) :: st.assigned }
  | some (old_category, old_score) =>
    if score > old_score then do
      let filtered ← removeFromCategoryRaw (st.recs.get old_category) player
      pure { recs := st.recs.set old_category filtered
             assigned := updAssignedRaw st.assigned player (category, score) }
    else do
      let filtered ← removeFromCategoryRaw (st.recs.get category) player
      pure { recs := st.recs.set category filtered, assigned := st.assigned }

def dedupStreamRaw (r : RawCompRecs) : List (SCat × RawRec) :=
  r.conservadora.map (fun x => (SCat.conservadora, x)) ++
  r.ousada.map (fun x => (SCat.ousada, x)) ++
  r.banco.map (fun x => (SCat.banco, x)) ++
  r.explosao.map (fun x => (SCat.explosao, x))

def ensureCrossCategoryDiversityRaw (r : RawCompRecs) : Except String RawCompRecs := do
  let st ← (dedupStreamRaw r).foldlM dedupStepRaw { recs := r, assigned := [] }
  pure st.recs

/-- `StrategyEngine.compose_recommendations` over raw thesis dicts: the
`.error` results are exactly the calls in which the source raises, and
there is no handler inside the function. -/
def composeRecommendationsE (all_theses : List (String × List RawRec))
    (game_ctx : GameCtx) : Except String RawCompRecs := do
  let st := emptySelState
  let categorized := categorizeThesesRaw all_theses game_ctx
  let pc ← selectForCategoryRaw st categorized.conservadora_candidates .conservadora 4
  let pc2 ← adjustAllRaw pc.2 pc.1 game_ctx
  let conservadora ← annotateStrategyRaw pc2.1 game_ctx
  let po ← selectForCategoryRaw pc2.2 categorized.ousada_candidates .ousada 3
  let po2 ← adjustAllRaw po.2 po.1 game_ctx
  let ousada ← annotateStrategyRaw po2.1 game_ctx
  let pb ← selectForCategoryRaw po2.2 categorized.banco_candidates .banco 3
  let pb2 ← adjustAllRaw pb.2 pb.1 game_ctx
  let banco ← annotateStrategyRaw pb2.1 game_ctx
  let pe ← selectForCategoryRaw pb2.2 categorized.explosao_candidates .explosao 2
  let pe2 ← adjustAllRaw pe.2 pe.1 game_ctx
  let explosao ← annotateStrategyRaw pe2.1 game_ctx
  ensureCrossCategoryDiversityRaw
    { conservadora := conservadora.take 4
      ousada := ousada.take 3
      banco := banco.take 3
      explosao := explosao.take 2 }

/-! ## Association-list lemmas -/

theorem alookup_nil {κ ν : Type} [DecidableEq κ] (k : κ) :
    alookup k ([] : List (κ × ν)) = none := rfl

theorem alookup_cons {κ ν : Type} [DecidableEq κ] (a : κ) (b : ν) (rest : List (κ × ν))
    (k : κ) : alookup k ((a, b) :: rest) = if a = k then some b else alookup k rest := rfl

theorem alookup_append {κ ν : Type} [DecidableEq κ] (k : κ) (l1 l2 : List (κ × ν)) :
    alookup k (l1 ++ l2) =
      match alookup k l1 with
      | some v => some v
      | none => alookup k l2 := by
  induction l1 with
  | nil => simp [alookup_nil]
  | cons kv rest ih =>
    cases kv with
    | mk k2 v =>
      by_cases h : k2 = k
      · subst h
        simp [alookup_cons]
      · simp [alookup_cons, h, ih]

theorem alookup_replaceAll {κ ν : Type} [DecidableEq κ] (l : List (κ × ν)) (k : κ) (v : ν) :
    alookup k (l.map (fun kv => if kv.1 = k then (k, v) else kv)) =
      (alookup k l).map (fun _ => v) := by
  induction l with
  | nil => simp [alookup_nil]
  | cons kv rest ih =>
    cases kv with
    | mk k2 w =>
      by_cases h : k2 = k
      · subst h
        simp [alookup_cons]
      · simp [alookup_cons, h, ih]

theorem alookup_replaceAll_ne {κ ν : Type} [DecidableEq κ] (l : List (κ × ν)) (k k2 : κ)
    (v : ν) (h : k2 ≠ k) :
    alookup k2 (l.map (fun kv => if kv.1 = k then (k, v) else kv)) = alookup k2 l := by
  induction l with
  | nil => simp
  | cons kv rest ih =>
    cases kv with
    | mk k3 w =>
      by_cases h3 : k3 = k
      · subst h3
        have hne : k3 ≠ k2 := fun he => h he.symm
        simp [alookup_cons, hne, ih]
      · by_cases h32 : k3 = k2
        · subst h32
          simp [alookup_cons, h3, ih]
        · simp [alookup_cons, h3, h32, ih]

theorem alookup_updateKey_self {κ ν : Type} [DecidableEq κ] (l : List (κ × ν)) (k : κ)
    (v : ν) : alookup k (updateKey l k v) = some v := by
  unfold updateKey
  split
  · next h =>
    rw [alookup_replaceAll]
    cases hh : alookup k l with
    | none => rw [hh] at h; simp at h
    | some w => simp
  · rw [alookup_append]
    next h =>
    cases hh : alookup k l with
    | none => simp [alookup]
    | some w => rw [hh] at h; simp at h

theorem alookup_updateKey_ne {κ ν : Type} [DecidableEq κ] (l : List (κ × ν)) (k k2 : κ)
    (v : ν) (h : k2 ≠ k) : alookup k2 (updateKey l k v) = alookup k2 l := by
  unfold updateKey
  split
  · exact alookup_replaceAll_ne l k k2 v h
  · rw [alookup_append]
    have hne : k ≠ k2 := fun he => h he.symm
    cases hh : alookup k2 l with
    | none => simp [alookup_cons, alookup_nil, hne]
    | some w => simp

/-! ## Claim C6 -/

/-- C6: for every roster entry and recent-stats row,
`derive_availability_and_expected_minutes` returns `expected_minutes ≥ 0`,
and whenever the returned availability is `"out"` the expected minutes
are exactly 0. -/
theorem derive_availability_out_zero_minutes (roster_entry : RosterEntry)
    (df_l5_row : Option L5Row) (treat_unknown_as_available : Bool) :
    0 ≤ (deriveAvailabilityAndExpectedMinutes roster_entry df_l5_row
      treat_unknown_as_available).expected_minutes ∧
    ((deriveAvailabilityAndExpectedMinutes roster_entry df_l5_row
      treat_unknown_as_available).availability = "out" →
      (deriveAvailabilityAndExpectedMinutes roster_entry df_l5_row
        treat_unknown_as_available).expected_minutes = 0) := by
  simp only [deriveAvailabilityAndExpectedMinutes]
  constructor
  · exact le_max_left 0 _
  · intro h
    split at h
    next hc => simp [hc]
    next hc =>
      split at h
      next => simp at h
      next =>
        split at h
        next => simp at h
        next => simp at h

/-- C6 witness: a roster entry whose status is "OUT". -/
theorem derive_availability_out_zero_minutes_witness :
    (deriveAvailabilityAndExpectedMinutes { STATUS := some "OUT" } none true).availability
      = "out" ∧
    (deriveAvailabilityAndExpectedMinutes { STATUS := some "OUT" } none
      true).expected_minutes = 0 :=
  ⟨by decide,
   (derive_availability_out_zero_minutes { STATUS := some "OUT" } none true).2 (by decide)⟩

/-! ## Claim C9 -/

/-- C9 counterexample: the status string "Injury" contains the substring
`injur`, so the context builder classifies the player as out, but the
vacuum analyzer's `_is_player_out` (which matches `out|injured|ir`, not
`injur`) does not. -/
theorem status_injur_vacuum_mismatch :
    strHasSub (pyToLower "Injury") "injur" = true ∧
    (deriveAvailabilityAndExpectedMinutes { STATUS := some "Injury" } none
      true).availability = "out" ∧
    isPlayerOut { STATUS := some "Injury" } = false := by decide

/-- C9 (amended): a status containing `out|ir|injur` (case-insensitive)
makes the context builder derive availability `"out"`, and a status
containing `out|injured|ir` makes the vacuum analyzer's
`_is_player_out` return true — the vacuum analyzer matches `injured`
where the context builder matches `injur`. -/
theorem status_out_keywords_amended :
    (∀ (re : RosterEntry) (row : Option L5Row) (t : Bool),
      (strHasSub (pyToLower (re.STATUS.getD "")) "out" ||
       strHasSub (pyToLower (re.STATUS.getD "")) "ir" ||
       strHasSub (pyToLower (re.STATUS.getD "")) "injur") = true →
      (deriveAvailabilityAndExpectedMinutes re row t).availability = "out") ∧
    (∀ p : RosterEntry,
      (strHasSub (pyToLower (p.STATUS.getD "")) "out" ||
       strHasSub (pyToLower (p.STATUS.getD "")) "injured" ||
       strHasSub (pyToLower (p.STATUS.getD "")) "ir") = true →
      isPlayerOut p = true) := by
  constructor
  · intro re row t h
    simp only [deriveAvailabilityAndExpectedMinutes]
    simp [h]
  · intro p h
    simp only [isPlayerOut]
    simp_all

/-- C9 witness. -/
theorem status_out_keywords_amended_witness :
    (deriveAvailabilityAndExpectedMinutes { STATUS := some "Out (knee)" } none
      true).availability = "out" ∧
    isPlayerOut { STATUS := some "Injured" } = true :=
  ⟨status_out_keywords_amended.1 { STATUS := some "Out (knee)" } none true (by decide),
   status_out_keywords_amended.2 { STATUS := some "Injured" } (by decide)⟩

/-! ## Claim C8 -/

theorem paceVolumeStep_other (pf : ℚ) (adj : PStats) (stat k : String) (h : k ≠ stat) :
    alookup k (paceVolumeStep pf adj stat) = alookup k adj := by
  unfold paceVolumeStep
  cases hv : alookup stat adj with
  | none => rfl
  | some v =>
    dsimp only
    split
    · exact alookup_updateKey_ne adj stat k _ h
    · rfl

theorem paceVolumeStep_self (pf : ℚ) (adj : PStats) (stat : String) :
    alookup stat (paceVolumeStep pf adj stat) =
      match alookup stat adj with
      | some v =>
        if ratOfPVal v > 0 then some (.num (roundTo 1 (ratOfPVal v * pf))) else some v
      | none => none := by
  unfold paceVolumeStep
  cases hv : alookup stat adj with
  | none =>
    dsimp only
    exact hv
  | some v =>
    dsimp only
    split
    · exact alookup_updateKey_self adj stat _
    · exact hv

/-- The unfolded shape of `adjust_player_stats` when the guard passes and the
expected game pace is 100. -/
theorem adjustPlayerStats_neutral_eq (pace_data : List (String × ℚ)) (player_stats : PStats)
    (home_team away_team : String) (hs : player_stats ≠ [])
    (hh : home_team ≠ "") (ha : away_team ≠ "")
    (hpace : calculateGamePace pace_data home_team away_team = 100) :
    adjustPlayerStats pace_data player_stats home_team away_team =
      updateKey (updateKey (updateKey
        (paceVolumeStep 1 (paceVolumeStep 1 (paceVolumeStep 1
          (paceVolumeStep 1 player_stats "pts_L5") "reb_L5") "ast_L5") "pra_L5")
        "pace_adjusted" (.bool true)) "game_pace" (.num (roundTo 1 100)))
        "pace_factor" (.num (roundTo 3 1)) := by
  unfold adjustPlayerStats
  rw [if_neg (by simp [hs, hh, ha])]
  simp only [hpace]
  norm_num [volumeStats, List.foldl]

/-- C8 counterexample.  With both ratings exactly 100: (a) an empty away-team
name makes `adjust_player_stats` return the record unchanged, with no
`pace_factor` reported; (b) a negative stat value is not rounded, so the
result does not equal the rounded input. -/
theorem pace_neutral_counterexample :
    alookup "pace_factor"
      (adjustPlayerStats [("H", 100), ("A", 100)] [("pts_L5", .num 5)] "H" "") = none ∧
    alookup "pts_L5"
      (adjustPlayerStats [("H", 100), ("A", 100)] [("pts_L5", .num (-(1/4)))] "H" "A")
      = some (.num (-(1/4))) ∧
    ¬ ((-(1/4) : ℚ) = roundTo 1 (-(1/4))) := by
  refine ⟨?_, ?_, ?_⟩
  · simp [adjustPlayerStats, alookup_cons, alookup_nil]
  · rw [adjustPlayerStats_neutral_eq _ _ _ _ (by simp) (by simp) (by simp)
      (by norm_num [calculateGamePace, alookup_cons, alookup_nil])]
    rw [alookup_updateKey_ne _ _ _ _ (by simp), alookup_updateKey_ne _ _ _ _ (by simp),
      alookup_updateKey_ne _ _ _ _ (by simp)]
    rw [show ∀ l : PStats, paceVolumeStep 1 (paceVolumeStep 1 (paceVolumeStep 1 l
        "reb_L5") "ast_L5") "pra_L5" = paceVolumeStep 1 (paceVolumeStep 1
        (paceVolumeStep 1 l "reb_L5") "ast_L5") "pra_L5" from fun _ => rfl]
    rw [paceVolumeStep_other _ _ _ _ (by simp), paceVolumeStep_other _ _ _ _ (by simp),
      paceVolumeStep_other _ _ _ _ (by simp), paceVolumeStep_self]
    norm_num [alookup_cons, ratOfPVal]
  · intro h
    rw [show roundTo 1 (-(1/4) : ℚ) = -(1/5) by
      norm_num [roundTo, pythonRound, Int.floor_eq_iff]] at h
    norm_num at h

/-- C8 (amended): provided the stats record is nonempty, both team names are
nonempty (otherwise the guard returns the record unchanged with no
`pace_factor`), and the volume stats are nonnegative numbers (a
nonpositive stat is left unrounded), two pace ratings of exactly 100 give
`pace_factor = 1.0` and each volume stat equal to its input rounded to
one decimal. -/
theorem pace_neutral_amended (pace_data : List (String × ℚ)) (player_stats : PStats)
    (home_team away_team : String) (hs : player_stats ≠ [])
    (hh : home_team ≠ "") (ha : away_team ≠ "")
    (hph : (alookup home_team pace_data).getD 100 = 100)
    (hpa : (alookup away_team pace_data).getD 100 = 100) :
    alookup "pace_factor" (adjustPlayerStats pace_data player_stats home_team away_team)
      = some (.num 1) ∧
    ∀ stat ∈ volumeStats, ∀ q : ℚ,
      alookup stat player_stats = some (.num q) → 0 ≤ q →
      alookup stat (adjustPlayerStats pace_data player_stats home_team away_team)
        = some (.num (roundTo 1 q)) := by
  have hpace : calculateGamePace pace_data home_team away_team = 100 := by
    unfold calculateGamePace
    rw [hph, hpa]
    norm_num
  have hround3 : roundTo 3 (1 : ℚ) = 1 := roundTo_eq_self 1000 (by norm_num)
  rw [adjustPlayerStats_neutral_eq pace_data player_stats home_team away_team hs hh ha hpace]
  constructor
  · rw [alookup_updateKey_self, hround3]
  · intro stat hstat q hq hq0
    have hself : ∀ adj : PStats, alookup stat adj = some (.num q) →
        alookup stat (paceVolumeStep 1 adj stat) = some (.num (roundTo 1 q)) := by
      intro adj hadj
      rw [paceVolumeStep_self, hadj]
      dsimp only [ratOfPVal]
      rcases lt_or_eq_of_le hq0 with hlt | heq0
      · rw [if_pos hlt]
        norm_num
      · rw [if_neg (by rw [← heq0]; exact lt_irrefl 0), ← heq0,
          roundTo_eq_self 0 (by norm_num)]
    simp only [volumeStats, List.mem_cons, List.not_mem_nil, or_false] at hstat
    rw [alookup_updateKey_ne _ _ _ _ (by rcases hstat with rfl | rfl | rfl | rfl <;> simp),
      alookup_updateKey_ne _ _ _ _ (by rcases hstat with rfl | rfl | rfl | rfl <;> simp),
      alookup_updateKey_ne _ _ _ _ (by rcases hstat with rfl | rfl | rfl | rfl <;> simp)]
    rcases hstat with rfl | rfl | rfl | rfl
    · rw [paceVolumeStep_other _ _ _ _ (by simp), paceVolumeStep_other _ _ _ _ (by simp),
        paceVolumeStep_other _ _ _ _ (by simp)]
      exact hself _ hq
    · rw [paceVolumeStep_other _ _ _ _ (by simp), paceVolumeStep_other _ _ _ _ (by simp)]
      exact hself _ (by rw [paceVolumeStep_other _ _ _ _ (by simp)]; exact hq)
    · rw [paceVolumeStep_other _ _ _ _ (by simp)]
      exact hself _ (by rw [paceVolumeStep_other _ _ _ _ (by simp),
        paceVolumeStep_other _ _ _ _ (by simp)]; exact hq)
    · exact hself _ (by rw [paceVolumeStep_other _ _ _ _ (by simp),
        paceVolumeStep_other _ _ _ _ (by simp),
        paceVolumeStep_other _ _ _ _ (by simp)]; exact hq)

/-- C8 witness. -/
theorem pace_neutral_amended_witness :
    alookup "pace_factor"
      (adjustPlayerStats [("BOS", 100)] [("pts_L5", .num (105/10))] "BOS" "MIA")
      = some (.num 1) ∧
    alookup "pts_L5"
      (adjustPlayerStats [("BOS", 100)] [("pts_L5", .num (105/10))] "BOS" "MIA")
      = some (.num (roundTo 1 (105/10))) := by
  have h := pace_neutral_amended [("BOS", 100)] [("pts_L5", .num (105/10))] "BOS" "MIA"
    (by simp) (by simp) (by simp) (by simp [alookup_cons, alookup_nil])
    (by simp [alookup_cons, alookup_nil])
  exact ⟨h.1, h.2 "pts_L5" (by simp [volumeStats]) (105/10)
    (by simp [alookup_cons, alookup_nil]) (by norm_num)⟩

/-! ## Claim C7 -/

/-- The insertion stream fed to the dict for one absent starter. -/
def vacuumEntries (team_roster : List RosterEntry) (starter : AbsentStarter) :
    List (Option String × VacuumOpp) :=
  team_roster.filterMap (fun p =>
    if pyToUpper (p.POSITION.getD "") = starter.position ∧ ¬p.STARTER ∧ ¬isPlayerOut p then
      some (p.PLAYER, mkVacuumOpp starter)
    else none)

/-- The insertion stream over all absent starters, in iteration order. -/
def vacuumEntriesAll (team_roster : List RosterEntry) :
    List AbsentStarter → List (Option String × VacuumOpp)
  | [] => []
  | st :: rest => vacuumEntries team_roster st ++ vacuumEntriesAll team_roster rest

theorem mem_vacuumEntriesAll {team_roster : List RosterEntry} {l : List AbsentStarter}
    {e : Option String × VacuumOpp} :
    e ∈ vacuumEntriesAll team_roster l ↔
      ∃ st ∈ l, e ∈ vacuumEntries team_roster st := by
  induction l with
  | nil => simp [vacuumEntriesAll]
  | cons st rest ih =>
    simp [vacuumEntriesAll, List.mem_append, ih]

theorem foldl_vacuumCandidateStep (starter : AbsentStarter) (team_roster : List RosterEntry) :
    ∀ acc : List (Option String × VacuumOpp),
    team_roster.foldl (vacuumCandidateStep starter) acc =
      (vacuumEntries team_roster starter).foldl insertIfAbsent acc := by
  induction team_roster with
  | nil => intro acc; rfl
  | cons p rest ih =>
    intro acc
    by_cases hc : pyToUpper (p.POSITION.getD "") = starter.position ∧ ¬p.STARTER ∧
        ¬isPlayerOut p
    · simp only [List.foldl_cons, vacuumEntries, List.filterMap_cons, if_pos hc]
      rw [show vacuumCandidateStep starter acc p = insertIfAbsent acc (p.PLAYER,
        mkVacuumOpp starter) from by unfold vacuumCandidateStep; rw [if_pos hc]]
      exact ih _
    · simp only [List.foldl_cons, vacuumEntries, List.filterMap_cons, if_neg hc]
      rw [show vacuumCandidateStep starter acc p = acc from by
        unfold vacuumCandidateStep; rw [if_neg hc]]
      exact ih _

theorem foldl_vacuum_outer (team_roster : List RosterEntry) :
    ∀ (l : List AbsentStarter) (acc : List (Option String × VacuumOpp)),
    l.foldl (fun acc starter => team_roster.foldl (vacuumCandidateStep starter) acc) acc =
      (vacuumEntriesAll team_roster l).foldl insertIfAbsent acc := by
  intro l
  induction l with
  | nil => intro acc; rfl
  | cons st rest ih =>
    intro acc
    simp only [List.foldl_cons, vacuumEntriesAll, List.foldl_append]
    rw [foldl_vacuumCandidateStep st team_roster acc]
    exact ih _

theorem alookup_foldl_insertIfAbsent {κ ν : Type} [DecidableEq κ] (k : κ) :
    ∀ (es : List (κ × ν)) (d : List (κ × ν)),
    alookup k (es.foldl insertIfAbsent d) =
      match alookup k d with
      | some v => some v
      | none => (es.find? (fun e => e.1 = k)).map (fun e => e.2) := by
  intro es
  induction es with
  | nil =>
    intro d
    simp only [List.foldl_nil]
    cases alookup k d <;> rfl
  | cons e rest ih =>
    intro d
    simp only [List.foldl_cons]
    rw [ih]
    by_cases hek : e.1 = k
    · subst hek
      cases hd : alookup e.1 d with
      | some v =>
        have : insertIfAbsent d e = d := by
          unfold insertIfAbsent
          rw [if_pos (by rw [hd]; rfl)]
        rw [this, hd]
      | none =>
        have : insertIfAbsent d e = d ++ [e] := by
          unfold insertIfAbsent
          rw [if_neg (by rw [hd]; simp)]
        rw [this, alookup_append, hd]
        have he1 : alookup e.1 [e] = some e.2 := by
          cases e with
          | mk k1 v1 => simp [alookup_cons]
        rw [he1]
        rw [List.find?_cons_of_pos _ (by simp)]
        rfl
    · have hlk : alookup k (insertIfAbsent d e) = alookup k d := by
        unfold insertIfAbsent
        split
        · rfl
        · rw [alookup_append]
          cases hd : alookup k d with
          | some v => rfl
          | none =>
            cases e with
            | mk k1 v1 =>
              simp only [alookup_cons, alookup_nil]
              simp only at hek
              rw [if_neg hek]
      rw [hlk]
      cases hd : alookup k d with
      | some v => rfl
      | none =>
        rw [List.find?_cons_of_neg _ (by simp [hek])]

theorem find_map_eq_of_unique {α β : Type} (p : α → Bool) (f : α → β) (v : β) :
    ∀ es : List α, (∃ e ∈ es, p e = true) → (∀ e ∈ es, p e = true → f e = v) →
    (es.find? p).map f = some v := by
  intro es
  induction es with
  | nil => intro hex _; simp at hex
  | cons e rest ih =>
    intro hex huniq
    by_cases he : p e = true
    · rw [List.find?_cons_of_pos _ he]
      simp [huniq e (List.mem_cons_self e rest) he]
    · rw [List.find?_cons_of_neg _ he]
      refine ih ?_ ?_
      · rcases hex with ⟨x, hx, hpx⟩
        rcases List.mem_cons.mp hx with rfl | hx2
        · exact absurd hpx he
        · exact ⟨x, hx2, hpx⟩
      · intro x hx hpx
        exact huniq x (List.mem_cons_of_mem e hx) hpx

theorem analyzeTeamVacuum_eq_fold (team_roster : List RosterEntry) (team_abbr : String)
    (h1 : team_roster ≠ []) (h2 : absentStarters team_roster ≠ []) :
    analyzeTeamVacuum team_roster team_abbr =
      (vacuumEntriesAll team_roster (absentStarters team_roster)).foldl insertIfAbsent [] := by
  unfold analyzeTeamVacuum
  rw [if_neg h1, if_neg h2]
  exact foldl_vacuum_outer team_roster (absentStarters team_roster) []

theorem nodup_map_inj {α β : Type} (f : α → β) (l : List α) (h : (l.map f).Nodup) :
    ∀ p ∈ l, ∀ q ∈ l, f p = f q → p = q := by
  induction l with
  | nil => intro p hp; simp at hp
  | cons a rest ih =>
    intro p hp q hq hpq
    simp only [List.map_cons, List.nodup_cons] at h
    rcases List.mem_cons.mp hp with rfl | hp2 <;> rcases List.mem_cons.mp hq with rfl | hq2
    · rfl
    · exact absurd (hpq ▸ List.mem_map_of_mem f hq2) h.1
    · exact absurd (hpq ▸ List.mem_map_of_mem f hp2) h.1
    · exact ih h.2 p hp2 q hq2 hpq

/-- C7 (amended): in a roster whose only out starting center is `s` and whose
only available bench center is `b` (with distinct player names), the
vacuum opportunities map `b` to the 1.25 boost tagged with `s`'s name,
and `apply_vacuum_boost` on `b`'s context multiplies each present volume
stat by 1.25 and rounds to one decimal, setting `vacuum_boost.active`. -/
theorem vacuum_single_center_boost (team_roster : List RosterEntry) (team_abbr : String)
    (s b : RosterEntry) (sn bn : String)
    (hfs : team_roster.filter (fun p =>
      p.STARTER && (pyToUpper (p.POSITION.getD "") == "C") && isPlayerOut p) = [s])
    (hfb : team_roster.filter (fun p =>
      !p.STARTER && (pyToUpper (p.POSITION.getD "") == "C") && !isPlayerOut p) = [b])
    (hnames : (team_roster.map (fun p => p.PLAYER)).Nodup)
    (hsn : s.PLAYER = some sn) (hbn : b.PLAYER = some bn) (ctx : VCtx)
    (hcn : ctx.name = some bn) :
    alookup (some bn) (analyzeTeamVacuum team_roster team_abbr) =
      some { reason := "Substituto de " ++ sn, boost := 5/4,
             absent_starter := some sn, position := "C" } ∧
    (applyVacuumBoost ctx (analyzeTeamVacuum team_roster team_abbr)).pts_L5
      = ctx.pts_L5.map (fun x => roundTo 1 (x * (5/4))) ∧
    (applyVacuumBoost ctx (analyzeTeamVacuum team_roster team_abbr)).reb_L5
      = ctx.reb_L5.map (fun x => roundTo 1 (x * (5/4))) ∧
    (applyVacuumBoost ctx (analyzeTeamVacuum team_roster team_abbr)).ast_L5
      = ctx.ast_L5.map (fun x => roundTo 1 (x * (5/4))) ∧
    (applyVacuumBoost ctx (analyzeTeamVacuum team_roster team_abbr)).pra_L5
      = ctx.pra_L5.map (fun x => roundTo 1 (x * (5/4))) ∧
    (applyVacuumBoost ctx (analyzeTeamVacuum team_roster team_abbr)).vacuum_boost
      = some (true, 5/4, "Substituto de " ++ sn, some sn) := by
  have hs0 : s ∈ team_roster.filter (fun p =>
      p.STARTER && (pyToUpper (p.POSITION.getD "") == "C") && isPlayerOut p) := by
    rw [hfs]; exact List.mem_singleton_self s
  obtain ⟨hsmem, hsP⟩ := List.mem_filter.mp hs0
  have hsStarter : s.STARTER = true := by simp at hsP; tauto
  have hsPos : pyToUpper (s.POSITION.getD "") = "C" := by simp at hsP; tauto
  have hsOut : isPlayerOut s = true := by simp at hsP; tauto
  have hb0 : b ∈ team_roster.filter (fun p =>
      !p.STARTER && (pyToUpper (p.POSITION.getD "") == "C") && !isPlayerOut p) := by
    rw [hfb]; exact List.mem_singleton_self b
  obtain ⟨hbmem, hbP⟩ := List.mem_filter.mp hb0
  have hbStarter : b.STARTER = false := by simp at hbP; tauto
  have hbPos : pyToUpper (b.POSITION.getD "") = "C" := by simp at hbP; tauto
  have hbOut : isPlayerOut b = false := by simp at hbP; tauto
  have hkey_s : ∀ p ∈ team_roster, p.STARTER = true →
      pyToUpper (p.POSITION.getD "") = "C" → isPlayerOut p = true → p = s := by
    intro p hp h1 h2 h3
    have hmem : p ∈ team_roster.filter (fun p =>
        p.STARTER && (pyToUpper (p.POSITION.getD "") == "C") && isPlayerOut p) :=
      List.mem_filter.mpr ⟨hp, by simp [h1, h2, h3]⟩
    rw [hfs] at hmem
    exact List.mem_singleton.mp hmem
  have hinj := nodup_map_inj (fun p => p.PLAYER) team_roster hnames
  have hsent : ({ name := some sn, position := "C" } : AbsentStarter)
      ∈ absentStarters team_roster := by
    unfold absentStarters
    refine List.mem_filterMap.mpr ⟨s, hsmem, ?_⟩
    rw [if_pos (by simp [hsStarter, hsOut])]
    simp [hsn, hsPos]
  have hstu : ∀ st ∈ absentStarters team_roster, st.position = "C" →
      st = { name := some sn, position := "C" } := by
    intro st hst hpos
    unfold absentStarters at hst
    obtain ⟨q, hq, hqe⟩ := List.mem_filterMap.mp hst
    by_cases hcond : (q.STARTER && isPlayerOut q) = true
    · rw [if_pos hcond] at hqe
      have hst2 := Option.some.inj hqe
      have h12 : q.STARTER = true ∧ isPlayerOut q = true := by simpa using hcond
      obtain ⟨h1, h2⟩ := h12
      have hqpos : pyToUpper (q.POSITION.getD "") = "C" := by
        rw [← hst2] at hpos
        exact hpos
      have hq_eq_s : q = s := hkey_s q hq h1 hqpos h2
      rw [← hst2, hq_eq_s, hsn, hsPos]
    · rw [if_neg hcond] at hqe
      exact absurd hqe (by simp)
  have hlk : alookup (some bn) (analyzeTeamVacuum team_roster team_abbr)
      = some (mkVacuumOpp { name := some sn, position := "C" }) := by
    rw [analyzeTeamVacuum_eq_fold _ _ (List.ne_nil_of_mem hsmem)
      (List.ne_nil_of_mem hsent)]
    rw [alookup_foldl_insertIfAbsent]
    simp only [alookup_nil]
    apply find_map_eq_of_unique
    · refine ⟨(b.PLAYER, mkVacuumOpp { name := some sn, position := "C" }), ?_,
        by simp [hbn]⟩
      apply mem_vacuumEntriesAll.mpr
      refine ⟨_, hsent, ?_⟩
      unfold vacuumEntries
      refine List.mem_filterMap.mpr ⟨b, hbmem, ?_⟩
      rw [if_pos ⟨by simpa using hbPos, by simp [hbStarter], by simp [hbOut]⟩]
    · intro e he hpe
      obtain ⟨st, hstmem, hein⟩ := mem_vacuumEntriesAll.mp he
      unfold vacuumEntries at hein
      obtain ⟨p, hpmem, hpe2⟩ := List.mem_filterMap.mp hein
      by_cases hcond : pyToUpper (p.POSITION.getD "") = st.position ∧
          ¬p.STARTER = true ∧ ¬isPlayerOut p = true
      · rw [if_pos hcond] at hpe2
        have he2 := Option.some.inj hpe2
        have hpk : p.PLAYER = some bn := by
          have : e.1 = some bn := of_decide_eq_true hpe
          rw [← he2] at this
          exact this
        have hp_eq_b : p = b := hinj p hpmem b hbmem (by simp only [hpk, hbn])
        have hstpos : st.position = "C" := by
          rw [← hcond.1, hp_eq_b, hbPos]
        rw [hstu st hstmem hstpos] at he2
        simp [← he2]
      · rw [if_neg hcond] at hpe2
        exact absurd hpe2 (by simp)
  have hne : analyzeTeamVacuum team_roster team_abbr ≠ [] := by
    intro h
    rw [h] at hlk
    exact absurd hlk (by simp [alookup_nil])
  have happ : applyVacuumBoost ctx (analyzeTeamVacuum team_roster team_abbr) =
      { ctx with
        pts_L5 := ctx.pts_L5.map (fun x => roundTo 1 (x * (5/4)))
        reb_L5 := ctx.reb_L5.map (fun x => roundTo 1 (x * (5/4)))
        ast_L5 := ctx.ast_L5.map (fun x => roundTo 1 (x * (5/4)))
        pra_L5 := ctx.pra_L5.map (fun x => roundTo 1 (x * (5/4)))
        vacuum_boost := some (true, 5/4, "Substituto de " ++ sn, some sn) } := by
    unfold applyVacuumBoost
    rw [if_neg hne, hcn, hlk]
    simp [mkVacuumOpp, pyStrOfOpt]
  refine ⟨by rw [hlk]; simp [mkVacuumOpp, pyStrOfOpt], ?_, ?_, ?_, ?_, ?_⟩ <;>
    rw [happ]

/-- C7 counterexample: `apply_vacuum_boost` stores `round(x * 1.25, 1)`,
not `x * 1.25`: for `pts_L5 = 10.01` the stored value is 12.5, but
exact 1.25-scaling demands 12.5125. -/
theorem vacuum_boost_rounding_counterexample :
    (applyVacuumBoost
      { name := some "B", pts_L5 := some (1001/100) }
      (analyzeTeamVacuum
        [{ PLAYER := some "S", POSITION := some "C", STARTER := true,
           STATUS := some "out" },
         { PLAYER := some "B", POSITION := some "C", STARTER := false,
           STATUS := none }]
        "MIA")).pts_L5 = some (25/2) ∧
    ¬ ((25/2 : ℚ) = 1001/100 * (5/4)) := by
  have h1 : analyzeTeamVacuum
      [{ PLAYER := some "S", POSITION := some "C", STARTER := true,
         STATUS := some "out" },
       { PLAYER := some "B", POSITION := some "C", STARTER := false,
         STATUS := none }] "MIA" =
      [(some "B", mkVacuumOpp { name := some "S", position := "C" })] := by
    simp [analyzeTeamVacuum, absentStarters, vacuumCandidateStep, insertIfAbsent,
      isPlayerOut, pyToUpper, pyToLower, strHasSub, listHasSub, listStarts,
      alookup_cons, alookup_nil]
  constructor
  · rw [h1]
    have hr : roundTo 1 (1001/100 * (5/4)) = 25/2 := by
      norm_num [roundTo, pythonRound, Int.floor_eq_iff]
    simp only [applyVacuumBoost, mkVacuumOpp, pyStrOfOpt, alookup_cons, alookup_nil]
    simp [hr]
  · intro h
    norm_num at h

/-- C7 witness: a two-man roster with one out starting center and one
available bench center. -/
theorem vacuum_single_center_boost_witness :
    alookup (some "B") (analyzeTeamVacuum
      [{ PLAYER := some "S", POSITION := some "C", STARTER := true,
         STATUS := some "out" },
       { PLAYER := some "B", POSITION := some "C", STARTER := false,
         STATUS := none }] "MIA") =
      some { reason := "Substituto de " ++ "S", boost := 5/4,
             absent_starter := some "S", position := "C" } ∧
    (applyVacuumBoost { name := some "B", pts_L5 := some 7 }
      (analyzeTeamVacuum
        [{ PLAYER := some "S", POSITION := some "C", STARTER := true,
           STATUS := some "out" },
         { PLAYER := some "B", POSITION := some "C", STARTER := false,
           STATUS := none }] "MIA")).pts_L5
      = (({ name := some "B", pts_L5 := some 7 } : VCtx).pts_L5.map
          (fun x => roundTo 1 (x * (5/4)))) ∧
    (applyVacuumBoost { name := some "B", pts_L5 := some 7 }
      (analyzeTeamVacuum
        [{ PLAYER := some "S", POSITION := some "C", STARTER := true,
           STATUS := some "out" },
         { PLAYER := some "B", POSITION := some "C", STARTER := false,
           STATUS := none }] "MIA")).vacuum_boost
      = some (true, 5/4, "Substituto de " ++ "S", some "S") := by
  have h := vacuum_single_center_boost
    [{ PLAYER := some "S", POSITION := some "C", STARTER := true,
       STATUS := some "out" },
     { PLAYER := some "B", POSITION := some "C", STARTER := false,
       STATUS := none }] "MIA"
    { PLAYER := some "S", POSITION := some "C", STARTER := true,
      STATUS := some "out" }
    { PLAYER := some "B", POSITION := some "C", STARTER := false, STATUS := none }
    "S" "B" (by decide) (by decide) (by decide) rfl rfl
    { name := some "B", pts_L5 := some 7 } rfl
  exact ⟨h.1, h.2.1, h.2.2.2.2.2⟩

/-! ## Claim C3 -/

/-- A rational that is an integer number of hundredths (every correlation
adjustment term is). -/
def isCenti (q : ℚ) : Prop := ∃ k : ℤ, q * 100 = k

theorem isCenti_add {a b : ℚ} (ha : isCenti a) (hb : isCenti b) : isCenti (a + b) := by
  obtain ⟨k, hk⟩ := ha
  obtain ⟨l, hl⟩ := hb
  exact ⟨k + l, by push_cast; rw [add_mul, hk, hl]⟩

theorem isCenti_min {a b : ℚ} (ha : isCenti a) (hb : isCenti b) : isCenti (min a b) := by
  rcases min_choice a b with h | h <;> rw [h] <;> assumption

theorem isCenti_max {a b : ℚ} (ha : isCenti a) (hb : isCenti b) : isCenti (max a b) := by
  rcases max_choice a b with h | h <;> rw [h] <;> assumption

theorem isCenti_ite (c : Prop) [Decidable c] {x y : ℚ} (hx : isCenti x)
    (hy : isCenti y) : isCenti (if c then x else y) := by
  split <;> assumption

theorem roundTo3_of_isCenti {q : ℚ} (h : isCenti q) : roundTo 3 q = q := by
  obtain ⟨k, hk⟩ := h
  refine roundTo_eq_self (k * 10) ?_
  push_cast
  rw [show q * 10 ^ 3 = q * 100 * 10 by ring, hk]

/-- The output shape of `apply_correlation_adjustments`: each signed term is
its fixed value or 0, the net is clamped to [-0.3, 0.3], and the stored
fields are the three-decimal roundings the source computes. -/
theorem applyCorr_shape (st : SelState) (r : SRec) (g : GameCtx) :
    ∃ p1 p2 p3 b1 b2 b3 : ℚ,
      (p1 = -(15/100) ∨ p1 = 0) ∧ (p2 = -(1/10) ∨ p2 = 0) ∧ (p3 = -(1/10) ∨ p3 = 0) ∧
      (b1 = 1/10 ∨ b1 = 0) ∧ (b2 = 8/100 ∨ b2 = 0) ∧ (b3 = 5/100 ∨ b3 = 0) ∧
      (applyCorrelationAdjustments st r g).1.score_adjustment =
        some (roundTo 3 (max (min (p1 + p2 + p3 + b1 + b2 + b3) (3/10)) (-(3/10)))) ∧
      (applyCorrelationAdjustments st r g).1.adjusted_confidence =
        some (roundTo 3 (min (max (r.confidence *
          (1 + max (min (p1 + p2 + p3 + b1 + b2 + b3) (3/10)) (-(3/10)))) 0) 1)) := by
  refine ⟨if countOf (touchCount st.used_teams (r.player_team.getD ""))
      (r.player_team.getD "") > 2 then -(15/100) else 0,
    if countOf (touchCount st.used_markets r.market) r.market > 2 then -(1/10) else 0,
    if |g.spread.getD 0| > 10 ∧ r.player_role = some "starter" then -(1/10) else 0,
    if (touchCount st.used_teams (r.player_team.getD "")).length ≥ 3 then 1/10 else 0,
    if (touchCount st.used_markets r.market).length ≥ 3 then 8/100 else 0,
    if |g.spread.getD 0| ≤ 5 ∧ r.market = "PTS" then 5/100 else 0,
    ?_, ?_, ?_, ?_, ?_, ?_, rfl, rfl⟩ <;>
  · split
    · exact Or.inl rfl
    · exact Or.inr rfl

/-- C3 (amended): the stored `score_adjustment` is always within
[-0.3, 0.3] and the stored `adjusted_confidence` is always within [0, 1]
and equals `round(clamp(confidence * (1 + score_adjustment), 0, 1), 3)` —
the rounding to three decimals is what the source stores. -/
theorem correlation_adjustment_bounds (st : SelState) (recommendation : SRec)
    (game_ctx : GameCtx) :
    ∃ a c : ℚ,
      (applyCorrelationAdjustments st recommendation game_ctx).1.score_adjustment
        = some a ∧
      (applyCorrelationAdjustments st recommendation game_ctx).1.adjusted_confidence
        = some c ∧
      -(3/10) ≤ a ∧ a ≤ 3/10 ∧ 0 ≤ c ∧ c ≤ 1 ∧
      c = roundTo 3 (min (max (recommendation.confidence * (1 + a)) 0) 1) := by
  obtain ⟨p1, p2, p3, b1, b2, b3, h1, h2, h3, h4, h5, h6, hsa, hac⟩ :=
    applyCorr_shape st recommendation game_ctx
  have hcenti : isCenti (max (min (p1 + p2 + p3 + b1 + b2 + b3) (3/10)) (-(3/10))) := by
    apply isCenti_max
    · apply isCenti_min
      · refine isCenti_add (isCenti_add (isCenti_add (isCenti_add (isCenti_add
          ?_ ?_) ?_) ?_) ?_) ?_
        · rcases h1 with rfl | rfl
          · exact ⟨-15, by norm_num⟩
          · exact ⟨0, by norm_num⟩
        · rcases h2 with rfl | rfl
          · exact ⟨-10, by norm_num⟩
          · exact ⟨0, by norm_num⟩
        · rcases h3 with rfl | rfl
          · exact ⟨-10, by norm_num⟩
          · exact ⟨0, by norm_num⟩
        · rcases h4 with rfl | rfl
          · exact ⟨10, by norm_num⟩
          · exact ⟨0, by norm_num⟩
        · rcases h5 with rfl | rfl
          · exact ⟨8, by norm_num⟩
          · exact ⟨0, by norm_num⟩
        · rcases h6 with rfl | rfl
          · exact ⟨5, by norm_num⟩
          · exact ⟨0, by norm_num⟩
      · exact ⟨30, by norm_num⟩
    · exact ⟨-30, by norm_num⟩
  have hexact := roundTo3_of_isCenti hcenti
  refine ⟨_, _, hsa, hac, ?_, ?_, ?_, ?_, ?_⟩
  · rw [hexact]
    exact le_max_right _ _
  · rw [hexact]
    exact max_le (le_trans (min_le_right _ _) (by norm_num)) (by norm_num)
  · exact roundTo_ge_of_ge 0 (by norm_num) (le_min (le_max_right _ _) (by norm_num))
  · exact roundTo_le_of_le 1000 (by norm_num) (min_le_right _ _)
  · rw [hexact]

/-- C3 counterexample: `apply_correlation_adjustments` stores
`round(clamped_confidence, 3)`, so with zero net adjustment and original
confidence 0.1234 the stored adjusted confidence is 0.123, not the exact
clamp value 0.1234 demanded by the claim. -/
theorem correlation_adjustment_exactness_counterexample :
    (applyCorrelationAdjustments emptySelState
      { player := "A", confidence := 1234/10000, market := "REB",
        thesis_type := "BigRebound" }
      { spread := some 0 }).1.score_adjustment = some 0 ∧
    (applyCorrelationAdjustments emptySelState
      { player := "A", confidence := 1234/10000, market := "REB",
        thesis_type := "BigRebound" }
      { spread := some 0 }).1.adjusted_confidence = some (123/1000) ∧
    min (max ((1234/10000 : ℚ) * (1 + 0)) 0) 1 = 1234/10000 ∧
    ¬ ((123/1000 : ℚ) = 1234/10000) := by
  have h30 : roundTo 3 (0 : ℚ) = 0 := roundTo_eq_self 0 (by norm_num)
  have hr : roundTo 3 (617/5000 : ℚ) = 123/1000 := by
    norm_num [roundTo, pythonRound, Int.floor_eq_iff]
  refine ⟨?_, ?_, by norm_num, by norm_num⟩ <;>
  · norm_num [applyCorrelationAdjustments, emptySelState, touchCount, countOf,
      alookup_nil, alookup_cons]
    rw [if_neg (by decide : ¬ ("REB" : String) = "PTS")]
    norm_num [hr, h30]

/-! ## Claim C2 -/

theorem clampRound2_bounds (x : ℚ) : 0 ≤ clampRound2 x ∧ clampRound2 x ≤ 1 :=
  ⟨roundTo_ge_of_ge 0 (by norm_num) (le_min (le_max_right _ _) (by norm_num)),
   roundTo_le_of_le 100 (by norm_num) (min_le_right _ _)⟩

theorem confBounds {player : String} {pid : Option String} {market : String} {x : ℚ}
    {w : List (String × ℚ)} {tt : String} {sl : Option ℚ} {ir : Option Bool}
    (t : ThesisOut)
    (h : ({ player := player, player_id := pid, market := market,
            confidence := clampRound2 x, weights := w, thesis_type := tt,
            suggested_line := sl, is_risk := ir } : ThesisOut) = t) :
    t.thesis_type = tt ∧ 0 ≤ t.confidence ∧ t.confidence ≤ 1 := by
  subst h
  exact ⟨rfl, (clampRound2_bounds x).1, (clampRound2_bounds x).2⟩

theorem bigRebound_bounds (p : PlayerCtxT) (g : GameCtx) (t : ThesisOut)
    (h : generateBigReboundThesis p g = some t) :
    t.thesis_type = "BigRebound" ∧ 0 ≤ t.confidence ∧ t.confidence ≤ 1 := by
  simp only [generateBigReboundThesis] at h
  repeat split at h
  all_goals
    first
    | exact confBounds t (Option.some.inj h)
    | exact confBounds t h
    | exact Option.noConfusion h
    | (simp at h
       first
       | exact confBounds t h
       | exact confBounds t h.2
       | exact confBounds t h.2.2
       | exact confBounds t (Option.some.inj h)
       | exact confBounds t (Option.some.inj h.2))
theorem assistMatchup_bounds (p : PlayerCtxT) (g : GameCtx) (t : ThesisOut)
    (h : generateAssistMatchupThesis p g = some t) :
    t.thesis_type = "AssistMatchup" ∧ 0 ≤ t.confidence ∧ t.confidence ≤ 1 := by
  simp only [generateAssistMatchupThesis] at h
  repeat split at h
  all_goals
    first
    | exact confBounds t (Option.some.inj h)
    | exact confBounds t h
    | exact Option.noConfusion h
    | (simp at h
       first
       | exact confBounds t h
       | exact confBounds t h.2
       | exact confBounds t h.2.2
       | exact confBounds t (Option.some.inj h)
       | exact confBounds t (Option.some.inj h.2))
theorem scorerLine_bounds (p : PlayerCtxT) (g : GameCtx) (t : ThesisOut)
    (h : generateScorerLineThesis p g = some t) :
    t.thesis_type = "ScorerLine" ∧ 0 ≤ t.confidence ∧ t.confidence ≤ 1 := by
  simp only [generateScorerLineThesis] at h
  repeat split at h
  all_goals
    first
    | exact confBounds t (Option.some.inj h)
    | exact confBounds t h
    | exact Option.noConfusion h
    | (simp at h
       first
       | exact confBounds t h
       | exact confBounds t h.2
       | exact confBounds t h.2.2
       | exact confBounds t (Option.some.inj h)
       | exact confBounds t (Option.some.inj h.2))
theorem valueHunter_bounds (p : PlayerCtxT) (g : GameCtx) (t : ThesisOut)
    (h : generateValueHunterThesis p g = some t) :
    t.thesis_type = "ValueHunter" ∧ 0 ≤ t.confidence ∧ t.confidence ≤ 1 := by
  simp only [generateValueHunterThesis] at h
  repeat split at h
  all_goals
    first
    | exact confBounds t (Option.some.inj h)
    | exact confBounds t h
    | exact Option.noConfusion h
    | (simp at h
       first
       | exact confBounds t h
       | exact confBounds t h.2
       | exact confBounds t h.2.2
       | exact confBounds t (Option.some.inj h)
       | exact confBounds t (Option.some.inj h.2))
theorem paceBoost_bounds (p : PlayerCtxT) (g : GameCtx) (t : ThesisOut)
    (h : generatePaceBoostThesis p g = some t) :
    t.thesis_type = "PaceBoost" ∧ 0 ≤ t.confidence ∧ t.confidence ≤ 1 := by
  simp only [generatePaceBoostThesis] at h
  repeat split at h
  all_goals
    first
    | exact confBounds t (Option.some.inj h)
    | exact confBounds t h
    | exact Option.noConfusion h
    | (simp at h
       first
       | exact confBounds t h
       | exact confBounds t h.2
       | exact confBounds t h.2.2
       | exact confBounds t (Option.some.inj h)
       | exact confBounds t (Option.some.inj h.2))
theorem blowoutRisk_shape (p : PlayerCtxT) (g : GameCtx) (t : ThesisOut)
    (h : generateBlowoutRiskThesis p g = some t) :
    t.thesis_type = "BlowoutRisk" ∧ t.confidence = 3/10 ∧ t.market = "RISK" ∧
      t.is_risk = some true := by
  simp only [generateBlowoutRiskThesis] at h
  split at h
  · simp at h
  · have ht := Option.some.inj h
    subst ht
    exact ⟨rfl, roundTo_eq_self 30 (by norm_num), rfl, rfl⟩

theorem mem_foldl_genStep (p : PlayerCtxT) (g : GameCtx) :
    ∀ (gens : List (PlayerCtxT → GameCtx → Option ThesisOut)) (acc : List ThesisOut)
      (t : ThesisOut), t ∈ gens.foldl (genStep p g) acc →
    t ∈ acc ∨ ∃ gen ∈ gens, gen p g = some t ∧
      (t.confidence > 4/10 ∨ t.thesis_type = "BlowoutRisk") := by
  intro gens
  induction gens with
  | nil => intro acc t h; exact Or.inl h
  | cons gen rest ih =>
    intro acc t h
    rcases ih (genStep p g acc gen) t h with h2 | ⟨g2, hg2, hs, hc⟩
    · unfold genStep at h2
      rcases hgen : gen p g with _ | th
      · rw [hgen] at h2
        exact Or.inl h2
      · rw [hgen] at h2
        dsimp only at h2
        split at h2
        · rcases List.mem_append.mp h2 with h3 | h3
          · exact Or.inl h3
          · have : t = th := List.mem_singleton.mp h3
            subst this
            exact Or.inr ⟨gen, List.mem_cons_self _ _, hgen, by assumption⟩
        · exact Or.inl h2
    · exact Or.inr ⟨g2, List.mem_cons_of_mem _ hg2, hs, hc⟩

theorem mem_generateAllTheses (p : PlayerCtxT) (g : GameCtx) (t : ThesisOut)
    (h : t ∈ generateAllTheses p g) :
    (t.confidence > 4/10 ∨ t.thesis_type = "BlowoutRisk") ∧
    (generateBigReboundThesis p g = some t ∨ generateAssistMatchupThesis p g = some t ∨
     generateScorerLineThesis p g = some t ∨ generateValueHunterThesis p g = some t ∨
     generatePaceBoostThesis p g = some t ∨ generateBlowoutRiskThesis p g = some t) := by
  simp only [generateAllTheses] at h
  have h2 := List.mem_of_mem_take h
  have h3 := (sortDescBy_perm (fun t : ThesisOut => t.confidence) _).mem_iff.mp h2
  rcases mem_foldl_genStep p g _ [] t h3 with h4 | ⟨gen, hgen, hs, hc⟩
  · simp at h4
  · refine ⟨hc, ?_⟩
    rcases List.mem_cons.mp hgen with rfl | hgen
    · exact Or.inl hs
    rcases List.mem_cons.mp hgen with rfl | hgen
    · exact Or.inr (Or.inl hs)
    rcases List.mem_cons.mp hgen with rfl | hgen
    · exact Or.inr (Or.inr (Or.inl hs))
    rcases List.mem_cons.mp hgen with rfl | hgen
    · exact Or.inr (Or.inr (Or.inr (Or.inl hs)))
    rcases List.mem_cons.mp hgen with rfl | hgen
    · exact Or.inr (Or.inr (Or.inr (Or.inr (Or.inl hs))))
    rcases List.mem_cons.mp hgen with rfl | hgen
    · exact Or.inr (Or.inr (Or.inr (Or.inr (Or.inr hs))))
    · simp at hgen

/-- C2: every thesis returned by `generate_all_theses` either has confidence
strictly above 0.4 and at most 1, or is the `BlowoutRisk` penalty signal
with confidence exactly 0.3, market `RISK` and `is_risk` true. -/
theorem thesis_confidence_invariant (p : PlayerCtxT) (g : GameCtx) (t : ThesisOut)
    (h : t ∈ generateAllTheses p g) :
    (4/10 < t.confidence ∧ t.confidence ≤ 1) ∨
    (t.thesis_type = "BlowoutRisk" ∧ t.confidence = 3/10 ∧ t.market = "RISK" ∧
      t.is_risk = some true) := by
  obtain ⟨hfilter, hsrc⟩ := mem_generateAllTheses p g t h
  rcases hsrc with h1 | h1 | h1 | h1 | h1 | h1
  · obtain ⟨htt, _, hub⟩ := bigRebound_bounds p g t h1
    rcases hfilter with hgt | hbad
    · exact Or.inl ⟨hgt, hub⟩
    · rw [htt] at hbad
      simp at hbad
  · obtain ⟨htt, _, hub⟩ := assistMatchup_bounds p g t h1
    rcases hfilter with hgt | hbad
    · exact Or.inl ⟨hgt, hub⟩
    · rw [htt] at hbad
      simp at hbad
  · obtain ⟨htt, _, hub⟩ := scorerLine_bounds p g t h1
    rcases hfilter with hgt | hbad
    · exact Or.inl ⟨hgt, hub⟩
    · rw [htt] at hbad
      simp at hbad
  · obtain ⟨htt, _, hub⟩ := valueHunter_bounds p g t h1
    rcases hfilter with hgt | hbad
    · exact Or.inl ⟨hgt, hub⟩
    · rw [htt] at hbad
      simp at hbad
  · obtain ⟨htt, _, hub⟩ := paceBoost_bounds p g t h1
    rcases hfilter with hgt | hbad
    · exact Or.inl ⟨hgt, hub⟩
    · rw [htt] at hbad
      simp at hbad
  · exact Or.inr (blowoutRisk_shape p g t h1)

/-- A concrete player context: a starting center tagged GLASS_BANGER. -/
def thesisSampleCtx : PlayerCtxT :=
  { name := "A", pos := some "C", role := some "starter",
    player_cls := some "GLASS_BANGER" }

def thesisSampleGame : GameCtx := {}

/-- The single thesis `generate_all_theses` produces for the sample. -/
def thesisSample : ThesisOut :=
  { player := "A", market := "REB", confidence := 27/50,
    weights := [("Role", 1), ("PlayerClass", 12/10)], thesis_type := "BigRebound",
    suggested_line := some 0 }

theorem generateAllTheses_sample :
    generateAllTheses thesisSampleCtx thesisSampleGame = [thesisSample] := by
  have hw : weightedBase (1/2) [("Role", (1:ℚ)), ("PlayerClass", 12/10)] = 27/50 := by
    simp [weightedBase, thesisWeights, alookup_cons, alookup_nil]
    norm_num
  have hc : clampRound2 (27/50) = 27/50 := by
    norm_num [clampRound2, roundTo, pythonRound, Int.floor_eq_iff]
  have hu : ¬((0:ℚ) > 18) := by norm_num
  have hl : suggestReboundLine thesisSampleCtx = 0 := by
    norm_num [suggestReboundLine, suggestRoleMultiplier, thesisSampleCtx, roundTo,
      pythonRound, Int.floor_eq_iff]
  have hgen : generateBigReboundThesis thesisSampleCtx thesisSampleGame
      = some thesisSample := by
    simp [generateBigReboundThesis, thesisSampleCtx, thesisSampleGame, thesisSample,
      getPlayerPosition, positionOverrides, alookup_cons, alookup_nil, strHasSub,
      listHasSub, listStarts, hu]
    exact ⟨by rw [show ((2:ℚ)⁻¹) = 1/2 from by norm_num, hw]; exact hc, hl⟩
  have h2 : generateAssistMatchupThesis thesisSampleCtx thesisSampleGame = none := by
    simp [generateAssistMatchupThesis, thesisSampleCtx, getPlayerPosition,
      positionOverrides, alookup_cons, alookup_nil]
  have h3 : generateScorerLineThesis thesisSampleCtx thesisSampleGame = none := by
    simp [generateScorerLineThesis, thesisSampleCtx, getPlayerPosition,
      positionOverrides, alookup_cons, alookup_nil]
  have h4 : generateValueHunterThesis thesisSampleCtx thesisSampleGame = none := by
    simp [generateValueHunterThesis, thesisSampleCtx]
  have h5 : generatePaceBoostThesis thesisSampleCtx thesisSampleGame = none := by
    simp [generatePaceBoostThesis, thesisSampleCtx, thesisSampleGame]
    decide
  have h6 : generateBlowoutRiskThesis thesisSampleCtx thesisSampleGame = none := by
    norm_num [generateBlowoutRiskThesis, thesisSampleGame]
  simp only [generateAllTheses, List.foldl, genStep, hgen, h2, h3, h4, h5, h6]
  norm_num [thesisSample, sortDescBy, insertDescBy]

/-- C2 witness. -/
theorem thesis_confidence_invariant_witness :
    (4/10 < thesisSample.confidence ∧ thesisSample.confidence ≤ 1) ∨
    (thesisSample.thesis_type = "BlowoutRisk" ∧ thesisSample.confidence = 3/10 ∧
      thesisSample.market = "RISK" ∧ thesisSample.is_risk = some true) :=
  thesis_confidence_invariant thesisSampleCtx thesisSampleGame thesisSample
    (by rw [generateAllTheses_sample]; exact List.mem_singleton_self thesisSample)

theorem validateMultiple_post (vp : MLeg → MLeg → Option MViolation) :
    ∀ (n : ℕ) (m : List MLeg), m.length ≤ n →
      validateMultiple vp m = [] ∨
        ((pairsOf (validateMultiple vp m)).filterMap (fun e => vp e.1 e.2)).filter
          (fun v => v.severity = some "critical") = [] := by
  intro n
  induction n with
  | zero =>
    intro m hm
    have : m = [] := List.length_eq_zero.mp (Nat.le_zero.mp hm)
    subst this
    left
    rw [validateMultiple]
  | succ k ih =>
    intro m hm
    match m with
    | [] => left; rw [validateMultiple]
    | a :: as =>
      rw [validateMultiple]
      by_cases h : ((pairsOf (a :: as)).filterMap (fun e => vp e.1 e.2)).filter
          (fun v => v.severity = some "critical") = []
      · simp [h]
      · simp only [h, if_neg, ite_false]
        apply ih
        rw [removeLowestLeg_cons_length]
        simpa using hm

/-- C4: `_validate_multiple` terminates — the leg removal makes each
recursive call's ticket strictly shorter — and the ticket it returns either
is empty or yields no 'critical'-severity violation on any ordered pair of
its legs. -/
theorem validate_multiple_terminates_critical_free
    (vp : MLeg → MLeg → Option MViolation) (m : List MLeg) :
    (∀ (a : MLeg) (as : List MLeg),
      (removeLowestLeg (a :: as)).length < (a :: as).length) ∧
    (validateMultiple vp m = [] ∨
      ((pairsOf (validateMultiple vp m)).filterMap (fun e => vp e.1 e.2)).filter
        (fun v => v.severity = some "critical") = []) := by
  constructor
  · intro a as
    rw [removeLowestLeg_cons_length]
    simp
  · exact validateMultiple_post vp m.length m le_rfl

/-- A raw thesis dict with no `player` key: `select_for_category`'s
`thesis['player']` raises a `KeyError` on it. -/
def rawBadThesis : RawRec :=
  { thesis_type := some "PaceBoost", confidence := some (6/10), market := some "AST" }

/-- C5 counterexample: `compose_recommendations` itself has no try/except, so
an exception raised during bucket assembly (here a `KeyError` on a thesis
with no `player` key) propagates out of the compose call instead of being
caught at its top level. -/
theorem compose_exception_escapes_counterexample :
    composeRecommendationsE [("PaceTheses", [rawBadThesis])]
      { spread := some 2, pace := some 99 } = .error "KeyError" := by
  norm_num [composeRecommendationsE, rawBadThesis, categorizeThesesRaw,
    determineCategoryRaw, addToPoolRaw, selectForCategoryRaw, adjustAllRaw,
    annotateStrategyRaw, identifyStrategyRaw, getK, emptySelState, categoryConfigs,
    bind, Except.bind, pure, Except.pure, List.foldlM, Option.getD,
    ensureCrossCategoryDiversityRaw, dedupStreamRaw]

/-- C5: the containment actually lives one level up — `generate_multipla`'s
try/except maps any exception raised while composing the batch to empty
`conservadora` and `ousada` buckets for the whole batch; no error is ever
propagated to the caller. -/
theorem multipla_catches_compose_error
    (compose : MatchupContext → Except String GDCompose)
    (games : List GameData) (msg : String)
    (h : runMultiplaBatch compose games = .error msg) :
    generateMultipla compose games = { conservadora := [], ousada := [] } := by
  unfold generateMultipla
  rw [h]

theorem multipla_catches_compose_error_witness :
    runMultiplaBatch (fun _ => (.error "KeyError" : Except String GDCompose)) [{}]
        = .error "KeyError" ∧
      generateMultipla (fun _ => (.error "KeyError" : Except String GDCompose)) [{}]
        = { conservadora := [], ousada := [] } := by
  have h : runMultiplaBatch (fun _ => (.error "KeyError" : Except String GDCompose)) [{}]
      = .error "KeyError" := rfl
  exact ⟨h, multipla_catches_compose_error _ [{}] "KeyError" h⟩

theorem updAssigned_cons (k : String) (w : SCat × ℚ) (rest : List (String × SCat × ℚ))
    (q : String) (v : SCat × ℚ) :
    updAssigned ((k, w) :: rest) q v =
      (if k = q then (q, v) else (k, w)) :: updAssigned rest q v := rfl

theorem alookup_updAssigned_ne (l : List (String × SCat × ℚ)) (q p : String)
    (v : SCat × ℚ) (h : q ≠ p) : alookup p (updAssigned l q v) = alookup p l := by
  induction l with
  | nil => rfl
  | cons kv rest ih =>
    obtain ⟨k, w⟩ := kv
    rw [updAssigned_cons]
    by_cases hk : k = q
    · rw [if_pos hk, alookup_cons, alookup_cons, if_neg h,
        if_neg (fun hkp => h (hk.symm.trans hkp))]
      exact ih
    · rw [if_neg hk, alookup_cons, alookup_cons]
      by_cases hkp : k = p
      · rw [if_pos hkp, if_pos hkp]
      · rw [if_neg hkp, if_neg hkp]
        exact ih

theorem alookup_updAssigned_self (l : List (String × SCat × ℚ)) (p : String)
    (v old : SCat × ℚ) (h : alookup p l = some old) :
    alookup p (updAssigned l p v) = some v := by
  induction l with
  | nil => simp [alookup_nil] at h
  | cons kv rest ih =>
    obtain ⟨k, w⟩ := kv
    rw [updAssigned_cons]
    by_cases hk : k = p
    · rw [if_pos hk, alookup_cons, if_pos rfl]
    · rw [if_neg hk, alookup_cons, if_neg hk]
      rw [alookup_cons, if_neg hk] at h
      exact ih h

theorem CompRecs.get_set (r : CompRecs) (c c' : SCat) (l : List SRec) :
    (r.set c l).get c' = if c' = c then l else r.get c' := by
  cases c <;> cases c' <;> simp [CompRecs.get, CompRecs.set]

/-- The loop invariant of `_ensure_cross_category_diversity`: any player
still present in a bucket either has an unprocessed stream entry for that
bucket, or is recorded in `player_to_category` as belonging to it. -/
def DedupInv (st : DedupState) (suffix : List (SCat × SRec)) : Prop :=
  ∀ (p : String) (c : SCat), (∃ r ∈ st.recs.get c, r.player = p) →
    (∃ e ∈ suffix, e.1 = c ∧ e.2.player = p) ∨
    ∃ sc : ℚ, alookup p st.assigned = some (c, sc)

theorem dedupInv_step (st : DedupState) (e : SCat × SRec) (rest : List (SCat × SRec))
    (h : DedupInv st (e :: rest)) : DedupInv (dedupStep st e) rest := by
  rcases hl : alookup e.2.player st.assigned with _ | ⟨oc, os⟩
  · have hd : dedupStep st e =
        { st with assigned := (e.2.player, e.1, recScore e.2) :: st.assigned } := by
      simp only [dedupStep]
      rw [hl]
    rw [hd]
    intro p c hp
    rcases h p c hp with ⟨e', he', hc, hpl⟩ | ⟨sc, hsc⟩
    · rcases List.mem_cons.mp he' with he | he
      · rw [he] at hc hpl
        right
        exact ⟨recScore e.2, by dsimp only; rw [alookup_cons, if_pos hpl, hc]⟩
      · exact Or.inl ⟨e', he, hc, hpl⟩
    · right
      have hne : e.2.player ≠ p := by
        intro heq
        rw [heq] at hl
        rw [hl] at hsc
        exact Option.noConfusion hsc
      exact ⟨sc, by dsimp only; rw [alookup_cons, if_neg hne]; exact hsc⟩
  · by_cases hgt : recScore e.2 > os
    · have hd : dedupStep st e =
          { recs := st.recs.set oc
              ((st.recs.get oc).filter (fun r => r.player ≠ e.2.player))
            assigned := updAssigned st.assigned e.2.player (e.1, recScore e.2) } := by
        simp only [dedupStep]
        rw [hl]
        dsimp only
        rw [if_pos hgt]
      rw [hd]
      intro p c hp
      dsimp only at hp
      rw [CompRecs.get_set] at hp
      by_cases hco : c = oc
      · rw [if_pos hco] at hp
        obtain ⟨r, hr, hpl⟩ := hp
        rw [List.mem_filter] at hr
        have h2 : r.player ≠ e.2.player := by simpa using hr.2
        have hne : p ≠ e.2.player := fun hq => h2 (hpl.trans hq)
        have hpmem : ∃ x ∈ st.recs.get c, x.player = p :=
          ⟨r, by rw [hco]; exact hr.1, hpl⟩
        rcases h p c hpmem with ⟨e', he', hc, hpl'⟩ | ⟨sc, hsc⟩
        · rcases List.mem_cons.mp he' with he | he
          · rw [he] at hpl'
            exact absurd hpl' (Ne.symm hne)
          · exact Or.inl ⟨e', he, hc, hpl'⟩
        · right
          refine ⟨sc, ?_⟩
          dsimp only
          rw [alookup_updAssigned_ne _ _ _ _ (Ne.symm hne)]
          exact hsc
      · rw [if_neg hco] at hp
        rcases h p c hp with ⟨e', he', hc, hpl'⟩ | ⟨sc, hsc⟩
        · rcases List.mem_cons.mp he' with he | he
          · rw [he] at hc hpl'
            right
            refine ⟨recScore e.2, ?_⟩
            dsimp only
            rw [← hpl', alookup_updAssigned_self st.assigned e.2.player _ _ hl, hc]
          · exact Or.inl ⟨e', he, hc, hpl'⟩
        · by_cases hpe : p = e.2.player
          · exfalso
            rw [hpe, hl] at hsc
            exact hco (congrArg Prod.fst (Option.some.inj hsc)).symm
          · right
            refine ⟨sc, ?_⟩
            dsimp only
            rw [alookup_updAssigned_ne _ _ _ _ (fun hq => hpe hq.symm)]
            exact hsc
    · have hd : dedupStep st e =
          { recs := st.recs.set e.1
              ((st.recs.get e.1).filter (fun r => r.player ≠ e.2.player))
            assigned := st.assigned } := by
        simp only [dedupStep]
        rw [hl]
        dsimp only
        rw [if_neg hgt]
      rw [hd]
      intro p c hp
      dsimp only at hp
      rw [CompRecs.get_set] at hp
      by_cases hce : c = e.1
      · rw [if_pos hce] at hp
        obtain ⟨r, hr, hpl⟩ := hp
        rw [List.mem_filter] at hr
        have h2 : r.player ≠ e.2.player := by simpa using hr.2
        have hne : p ≠ e.2.player := fun hq => h2 (hpl.trans hq)
        have hpmem : ∃ x ∈ st.recs.get c, x.player = p :=
          ⟨r, by rw [hce]; exact hr.1, hpl⟩
        rcases h p c hpmem with ⟨e', he', hc, hpl'⟩ | ⟨sc, hsc⟩
        · rcases List.mem_cons.mp he' with he | he
          · rw [he] at hpl'
            exact absurd hpl' (Ne.symm hne)
          · exact Or.inl ⟨e', he, hc, hpl'⟩
        · exact Or.inr ⟨sc, hsc⟩
      · rw [if_neg hce] at hp
        rcases h p c hp with ⟨e', he', hc, hpl'⟩ | ⟨sc, hsc⟩
        · rcases List.mem_cons.mp he' with he | he
          · rw [he] at hc
            exact absurd hc.symm hce
          · exact Or.inl ⟨e', he, hc, hpl'⟩
        · exact Or.inr ⟨sc, hsc⟩

theorem dedupInv_foldl : ∀ (stream : List (SCat × SRec)) (st : DedupState),
    DedupInv st stream → DedupInv (stream.foldl dedupStep st) [] := by
  intro stream
  induction stream with
  | nil => intro st h; exact h
  | cons e es ih => intro st h; exact ih _ (dedupInv_step st e es h)

theorem dedupInv_init (r : CompRecs) :
    DedupInv { recs := r, assigned := [] } (dedupStream r) := by
  intro p c hp
  obtain ⟨x, hx, hpl⟩ := hp
  left
  refine ⟨(c, x), ?_, rfl, hpl⟩
  cases c <;> simp [dedupStream, CompRecs.get] at hx ⊢ <;> tauto

theorem ensure_diversity_unique (r : CompRecs) (p : String) (c c' : SCat)
    (h1 : ∃ x ∈ (ensureCrossCategoryDiversity r).get c, x.player = p)
    (h2 : ∃ x ∈ (ensureCrossCategoryDiversity r).get c', x.player = p) : c = c' := by
  have hfin := dedupInv_foldl (dedupStream r) _ (dedupInv_init r)
  unfold ensureCrossCategoryDiversity at h1 h2
  rcases hfin p c h1 with ⟨e, he, _⟩ | ⟨sc, hsc⟩
  · exact absurd he (List.not_mem_nil e)
  rcases hfin p c' h2 with ⟨e, he, _⟩ | ⟨sc', hsc'⟩
  · exact absurd he (List.not_mem_nil e)
  exact congrArg Prod.fst (Option.some.inj (hsc.symm.trans hsc'))

theorem dedupStep_recs_sublist (st : DedupState) (e : SCat × SRec) (c : SCat) :
    ((dedupStep st e).recs.get c).Sublist (st.recs.get c) := by
  rcases hl : alookup e.2.player st.assigned with _ | ⟨oc, os⟩
  · have hd : dedupStep st e =
        { st with assigned := (e.2.player, e.1, recScore e.2) :: st.assigned } := by
      simp only [dedupStep]
      rw [hl]
    rw [hd]
  · by_cases hgt : recScore e.2 > os
    · have hd : dedupStep st e =
          { recs := st.recs.set oc
              ((st.recs.get oc).filter (fun r => r.player ≠ e.2.player))
            assigned := updAssigned st.assigned e.2.player (e.1, recScore e.2) } := by
        simp only [dedupStep]
        rw [hl]
        dsimp only
        rw [if_pos hgt]
      rw [hd]
      dsimp only
      rw [CompRecs.get_set]
      split
      · next hco => rw [hco]; exact List.filter_sublist _
      · exact List.Sublist.refl _
    · have hd : dedupStep st e =
          { recs := st.recs.set e.1
              ((st.recs.get e.1).filter (fun r => r.player ≠ e.2.player))
            assigned := st.assigned } := by
        simp only [dedupStep]
        rw [hl]
        dsimp only
        rw [if_neg hgt]
      rw [hd]
      dsimp only
      rw [CompRecs.get_set]
      split
      · next hce => rw [hce]; exact List.filter_sublist _
      · exact List.Sublist.refl _

theorem foldl_dedup_sublist : ∀ (stream : List (SCat × SRec)) (st : DedupState) (c : SCat),
    ((stream.foldl dedupStep st).recs.get c).Sublist (st.recs.get c) := by
  intro stream
  induction stream with
  | nil => intro st c; exact List.Sublist.refl _
  | cons e es ih =>
    intro st c
    exact (ih (dedupStep st e) c).trans (dedupStep_recs_sublist st e c)

theorem ensure_diversity_length (r : CompRecs) (c : SCat) :
    ((ensureCrossCategoryDiversity r).get c).length ≤ (r.get c).length :=
  (foldl_dedup_sublist (dedupStream r) { recs := r, assigned := [] } c).length_le

theorem bucket_countP_le_one (res : CompRecs) (p : String)
    (h : ∀ c c', (∃ x ∈ res.get c, x.player = p) →
      (∃ x ∈ res.get c', x.player = p) → c = c') :
    ([res.conservadora, res.ousada, res.banco, res.explosao].countP
      (fun b => b.any (fun r => r.player == p))) ≤ 1 := by
  have e1 : res.conservadora.any (fun r => r.player == p) = true →
      ∃ x ∈ res.conservadora, x.player = p := fun hh => by simpa using List.any_eq_true.mp hh
  have e2 : res.ousada.any (fun r => r.player == p) = true →
      ∃ x ∈ res.ousada, x.player = p := fun hh => by simpa using List.any_eq_true.mp hh
  have e3 : res.banco.any (fun r => r.player == p) = true →
      ∃ x ∈ res.banco, x.player = p := fun hh => by simpa using List.any_eq_true.mp hh
  have e4 : res.explosao.any (fun r => r.player == p) = true →
      ∃ x ∈ res.explosao, x.player = p := fun hh => by simpa using List.any_eq_true.mp hh
  by_cases h1 : res.conservadora.any (fun r => r.player == p) = true <;>
  by_cases h2 : res.ousada.any (fun r => r.player == p) = true <;>
  by_cases h3 : res.banco.any (fun r => r.player == p) = true <;>
  by_cases h4 : res.explosao.any (fun r => r.player == p) = true <;>
  simp [List.countP_cons, List.countP_nil, h1, h2, h3, h4] <;>
  first
    | exact absurd (h .conservadora .ousada (e1 h1) (e2 h2)) (by decide)
    | exact absurd (h .conservadora .banco (e1 h1) (e3 h3)) (by decide)
    | exact absurd (h .conservadora .explosao (e1 h1) (e4 h4)) (by decide)
    | exact absurd (h .ousada .banco (e2 h2) (e3 h3)) (by decide)
    | exact absurd (h .ousada .explosao (e2 h2) (e4 h4)) (by decide)
    | exact absurd (h .banco .explosao (e3 h3) (e4 h4)) (by decide)

/-- C1: in the mapping returned by `compose_recommendations`, no player
appears in more than one of the four buckets, and the buckets hold at most
4, 3, 3 and 2 recommendations respectively. -/
theorem compose_recommendations_diversity_caps
    (all_theses : List (String × List SRec)) (game_ctx : GameCtx) :
    (∀ p : String,
      ([(composeRecommendations all_theses game_ctx).conservadora,
        (composeRecommendations all_theses game_ctx).ousada,
        (composeRecommendations all_theses game_ctx).banco,
        (composeRecommendations all_theses game_ctx).explosao].countP
          (fun b => b.any (fun r => r.player == p))) ≤ 1) ∧
    (composeRecommendations all_theses game_ctx).conservadora.length ≤ 4 ∧
    (composeRecommendations all_theses game_ctx).ousada.length ≤ 3 ∧
    (composeRecommendations all_theses game_ctx).banco.length ≤ 3 ∧
    (composeRecommendations all_theses game_ctx).explosao.length ≤ 2 := by
  simp only [composeRecommendations]
  refine ⟨fun p => bucket_countP_le_one _ p (fun c c' => ensure_diversity_unique _ p c c'),
    ?_, ?_, ?_, ?_⟩
  · exact le_trans (ensure_diversity_length _ .conservadora) (List.length_take_le _ _)
  · exact le_trans (ensure_diversity_length _ .ousada) (List.length_take_le _ _)
  · exact le_trans (ensure_diversity_length _ .banco) (List.length_take_le _ _)
  · exact le_trans (ensure_diversity_length _ .explosao) (List.length_take_le _ _)

theorem selectFold_role (category : SCat) (roles : List String) :
    ∀ (l : List (SRec × ℚ)) (acc : List SRec × SelState),
      (∀ x ∈ l, x.1.player_role.getD "" ∈ roles) →
      (∀ r ∈ acc.1, r.player_role.getD "" ∈ roles) →
      ∀ r ∈ (l.foldl (fun acc x =>
          (acc.1 ++ [{ x.1 with strategy_category := some category.name }],
           { used_players := acc.2.used_players ++ [x.1.player]
             used_teams := bumpCount acc.2.used_teams (x.1.player_team.getD "")
             used_markets := bumpCount acc.2.used_markets x.1.market })) acc).1,
        r.player_role.getD "" ∈ roles := by
  intro l
  induction l with
  | nil => intro acc _ hacc r hr; exact hacc r hr
  | cons x xs ih =>
    intro acc hl hacc r hr
    rw [List.foldl_cons] at hr
    refine ih _ (fun y hy => hl y (List.mem_cons_of_mem x hy)) ?_ r hr
    intro q hq
    rcases List.mem_append.mp hq with hm | hm
    · exact hacc q hm
    · rw [List.mem_singleton] at hm
      subst hm
      exact hl x (List.mem_cons_self x xs)

theorem selectForCategory_role (st : SelState) (candidates : List SRec) (category : SCat)
    (n : ℕ) (hne : (categoryConfigs category).allowed_roles ≠ [])
    (r : SRec) (hr : r ∈ (selectForCategory st candidates category n).1) :
    r.player_role.getD "" ∈ (categoryConfigs category).allowed_roles := by
  simp only [selectForCategory] at hr
  split at hr
  · exact absurd hr (List.not_mem_nil r)
  · refine selectFold_role category _ _ _ ?_ ?_ r hr
    · intro x hx
      have hx2 := List.mem_of_mem_take hx
      have hx3 := (sortDescBy_perm (fun y : SRec × ℚ => y.1.confidence * y.2) _).mem_iff.mp hx2
      obtain ⟨t, ht, hft⟩ := List.mem_filterMap.mp hx3
      split at hft
      · exact Option.noConfusion hft
      split at hft
      · exact Option.noConfusion hft
      split at hft
      · exact Option.noConfusion hft
      rename_i h3
      split at hft
      · exact Option.noConfusion hft
      have hx1 : x.1 = t := by rw [← Option.some.inj hft]
      rw [hx1]
      exact not_not.mp ((not_and_or.mp h3).resolve_left (not_not_intro hne))
    · intro q hq
      exact absurd hq (List.not_mem_nil q)

theorem adjustAll_role (roles : List String) (g : GameCtx) :
    ∀ (recs : List SRec) (st : SelState) (acc0 : List SRec),
      (∀ t ∈ recs, t.player_role.getD "" ∈ roles) →
      (∀ r ∈ acc0, r.player_role.getD "" ∈ roles) →
      ∀ r ∈ (recs.foldl (fun acc r =>
          (acc.1 ++ [(applyCorrelationAdjustments acc.2 r g).1],
           (applyCorrelationAdjustments acc.2 r g).2)) (acc0, st)).1,
        r.player_role.getD "" ∈ roles := by
  intro recs
  induction recs with
  | nil => intro st acc0 _ hacc r hr; exact hacc r hr
  | cons t ts ih =>
    intro st acc0 hl hacc r hr
    rw [List.foldl_cons] at hr
    refine ih _ _ (fun y hy => hl y (List.mem_cons_of_mem t hy)) ?_ r hr
    intro q hq
    rcases List.mem_append.mp hq with hm | hm
    · exact hacc q hm
    · rw [List.mem_singleton] at hm
      subst hm
      exact hl t (List.mem_cons_self t ts)

theorem annotateStrategy_role (roles : List String) (recs : List SRec) (g : GameCtx)
    (h : ∀ t ∈ recs, t.player_role.getD "" ∈ roles) :
    ∀ r ∈ annotateStrategy recs g, r.player_role.getD "" ∈ roles := by
  intro r hr
  simp only [annotateStrategy] at hr
  split at hr
  · exact h r hr
  · obtain ⟨t, ht, rfl⟩ := List.mem_map.mp hr
    exact h t ht

theorem compose_bucket_role (all_theses : List (String × List SRec))
    (game_ctx : GameCtx) (c : SCat) (r : SRec)
    (hr : r ∈ (composeRecommendations all_theses game_ctx).get c) :
    r.player_role.getD "" ∈ (categoryConfigs c).allowed_roles := by
  simp only [composeRecommendations] at hr
  have hr2 := (foldl_dedup_sublist _ _ c).subset hr
  cases c
  · have hr3 := List.mem_of_mem_take hr2
    refine annotateStrategy_role _ _ _ ?_ r hr3
    intro t ht
    refine adjustAll_role _ game_ctx _ _ _ ?_ ?_ t ht
    · intro u hu
      exact selectForCategory_role _ _ .conservadora _ (by decide) u hu
    · intro q hq
      exact absurd hq (List.not_mem_nil q)
  · have hr3 := List.mem_of_mem_take hr2
    refine annotateStrategy_role _ _ _ ?_ r hr3
    intro t ht
    refine adjustAll_role _ game_ctx _ _ _ ?_ ?_ t ht
    · intro u hu
      exact selectForCategory_role _ _ .ousada _ (by decide) u hu
    · intro q hq
      exact absurd hq (List.not_mem_nil q)
  · have hr3 := List.mem_of_mem_take hr2
    refine annotateStrategy_role _ _ _ ?_ r hr3
    intro t ht
    refine adjustAll_role _ game_ctx _ _ _ ?_ ?_ t ht
    · intro u hu
      exact selectForCategory_role _ _ .banco _ (by decide) u hu
    · intro q hq
      exact absurd hq (List.not_mem_nil q)
  · have hr3 := List.mem_of_mem_take hr2
    refine annotateStrategy_role _ _ _ ?_ r hr3
    intro t ht
    refine adjustAll_role _ game_ctx _ _ _ ?_ ?_ t ht
    · intro u hu
      exact selectForCategory_role _ _ .explosao _ (by decide) u hu
    · intro q hq
      exact absurd hq (List.not_mem_nil q)

/-- C10: every selected recommendation's `player_role` lies in its bucket's
`allowed_roles`; each bucket's `allowed_roles` is a subset of
starter/rotation/bench, so a thesis whose attached role is 'star',
'bench_scorer' or 'deep_bench' — all producible by the context builder's
role classifier — is never selected into any bucket. -/
theorem compose_role_exclusion (all_theses : List (String × List SRec))
    (game_ctx : GameCtx) :
    (∀ (starter : Bool) (usage : String), buildCtxRole starter usage ∈
      ["star", "starter", "bench_scorer", "rotation", "deep_bench"]) ∧
    (∀ c : SCat, ∀ x ∈ (categoryConfigs c).allowed_roles,
      x ∈ ["starter", "rotation", "bench"]) ∧
    (∀ (c : SCat) (r : SRec), r ∈ (composeRecommendations all_theses game_ctx).get c →
      r.player_role.getD "" ∈ (categoryConfigs c).allowed_roles ∧
      r.player_role.getD "" ∉ ["star", "bench_scorer", "deep_bench"]) := by
  refine ⟨?_, ?_, ?_⟩
  · intro s u
    simp only [buildCtxRole]
    repeat' split
    all_goals simp
  · intro c x hx
    cases c
    all_goals simp [categoryConfigs] at hx
    · subst hx; decide
    · rcases hx with rfl | rfl <;> decide
    · rcases hx with rfl | rfl <;> decide
    · rcases hx with rfl | rfl | rfl <;> decide
  · intro c r hr
    have h1 := compose_bucket_role all_theses game_ctx c r hr
    refine ⟨h1, ?_⟩
    cases c
    all_goals simp [categoryConfigs] at h1
    · rw [h1]; decide
    · rcases h1 with h1 | h1 <;> rw [h1] <;> decide
    · rcases h1 with h1 | h1 <;> rw [h1] <;> decide
    · rcases h1 with h1 | h1 | h1 <;> rw [h1] <;> decide

/-- A concrete starter thesis: ScorerLine on PTS at confidence 0.7. -/
def sThesis1 : SRec :=
  { player := "A", confidence := 7/10, market := "PTS", thesis_type := "ScorerLine",
    pctx_team := some "MIA", pctx_role := some "starter" }

def sampleGameCtx : GameCtx := { spread := some 2 }

/-- `sThesis1` as pooled by `categorize_theses`. -/
def sThesis1Cat : SRec :=
  { sThesis1 with
    category := some "conservadora"
    player_team := some "MIA"
    player_role := some "starter" }

/-- `sThesis1Cat` as selected by `select_for_category`. -/
def sThesis1Sel : SRec :=
  { sThesis1Cat with strategy_category := some "conservadora" }

/-- `sThesis1Sel` after `apply_correlation_adjustments`. -/
def sThesis1Adj : SRec :=
  { sThesis1Sel with
    adjusted_confidence := some (147/200)
    score_adjustment := some (1/20) }

/-- The enriched record `compose_recommendations` places in `conservadora`
for the sample input. -/
def sThesis1Final : SRec :=
  { sThesis1Adj with
    identified_strategy := some "CURATED_COMBO"
    strategy_description := some "" }

def sampleSelState : SelState :=
  { used_players := ["A"], used_teams := [("MIA", 1)], used_markets := [("PTS", 1)] }

theorem composeRecommendations_sample :
    composeRecommendations [("A", [sThesis1])] sampleGameCtx =
      { conservadora := [sThesis1Final], ousada := [], banco := [], explosao := [] } := by
  have h1 : categorizeTheses [("A", [sThesis1])] sampleGameCtx =
      { conservadora_candidates := [sThesis1Cat] } := by
    simp [categorizeTheses, determineCategory, sThesis1, addToPool, sThesis1Cat]
  have h2 : selectForCategory emptySelState [sThesis1Cat] .conservadora 4 =
      ([sThesis1Sel], sampleSelState) := by
    have hlt : ¬((7:ℚ)/10 < 13/20) := by norm_num
    have hlt2 : ¬((7:ℚ)/10 < 65/100) := by norm_num
    simp [selectForCategory, categoryConfigs, emptySelState, sThesis1, sThesis1Cat,
      sThesis1Sel, sortDescBy, insertDescBy, bumpCount, alookup_cons, alookup_nil,
      sampleSelState, SCat.name, hlt, hlt2]
  have hr1 : roundTo 3 ((147:ℚ)/200) = 147/200 := by
    norm_num [roundTo, pythonRound, Int.floor_eq_iff]
  have hr2 : roundTo 3 ((1:ℚ)/20) = 1/20 := by
    norm_num [roundTo, pythonRound, Int.floor_eq_iff]
  have h3 : applyCorrelationAdjustments sampleSelState sThesis1Sel sampleGameCtx =
      (sThesis1Adj, sampleSelState) := by
    simp [applyCorrelationAdjustments, sampleSelState, sThesis1, sThesis1Cat,
      sThesis1Sel, sThesis1Adj, sampleGameCtx, touchCount, countOf, alookup_cons,
      alookup_nil]
    norm_num [hr1, hr2]
  have h4 : adjustAll sampleSelState [sThesis1Sel] sampleGameCtx =
      ([sThesis1Adj], sampleSelState) := by
    simp [adjustAll, h3]
  have h5 : identifyStrategy [sThesis1Adj] sampleGameCtx = "CURATED_COMBO" := by
    simp [identifyStrategy, sThesis1, sThesis1Cat, sThesis1Sel, sThesis1Adj,
      sampleGameCtx]
  have h6 : annotateStrategy [sThesis1Adj] sampleGameCtx = [sThesis1Final] := by
    simp [annotateStrategy, h5, strategyDescription, alookup_cons, alookup_nil,
      sThesis1Final]
  have h7 : ∀ (c : SCat) (n : ℕ) (st : SelState),
      selectForCategory st [] c n = ([], st) := by
    intro c n st
    simp [selectForCategory]
  have h9 : ∀ st : SelState, adjustAll st [] sampleGameCtx = ([], st) := fun _ => rfl
  have h10 : annotateStrategy [] sampleGameCtx = [] := rfl
  have h8 : ensureCrossCategoryDiversity
      { conservadora := [sThesis1Final], ousada := [], banco := [], explosao := [] } =
      { conservadora := [sThesis1Final], ousada := [], banco := [], explosao := [] } := by
    simp [ensureCrossCategoryDiversity, dedupStream, dedupStep, recScore, alookup_nil]
  simp only [composeRecommendations, h1]
  simp only [h2]
  simp only [h4]
  simp only [h6, h7, h9, h10]
  simp [h8]

theorem compose_role_exclusion_witness :
    sThesis1Final.player_role.getD "" ∈ (categoryConfigs .conservadora).allowed_roles ∧
    sThesis1Final.player_role.getD "" ∉ ["star", "bench_scorer", "deep_bench"] :=
  (compose_role_exclusion [("A", [sThesis1])] sampleGameCtx).2.2 .conservadora
    sThesis1Final
    (by rw [composeRecommendations_sample]; exact List.mem_singleton_self _)
